import Mathlib

/-!
Verification development for the `pilang` interpreter (`jpi.py`).

The file shallowly embeds the three core components of the interpreter:

* the line-incremental tokenizer (`Interpreter.tokenise`),
* the stack-driven parser (`Interpreter.parse` and the `Program` helpers),
* the tree-walking executor (`Interpreter.execute`).

Python dictionaries are modelled as association lists (updates keep the
insertion position of a key, new keys are appended; this matches CPython's
insertion-ordered dicts observably).  The dot-joined scope-signature strings
are modelled as the joined list itself (`List Nat`, bottom scope first) —
the join is injective, so keying on the list is equivalent to keying on the
string.  Python `sys.exit(1)` via `terminate()` is modelled by a `halted`
flag, and an uncaught Python exception (`KeyError`, `IndexError`,
`TypeError`) by a `crashed` flag.  The predicate closures stored in node
payloads are modelled by the finite enumeration `PredTest` plus the jump
target indices, exactly the data the two closures in the source close over.
-/

namespace JPI


/-! ## Association-list operations (model of Python `dict`) -/

/-- Lookup in an association list (`k in d` / `d[k]`). -/
def alookup {α β : Type} [DecidableEq α] : List (α × β) → α → Option β
  | [], _ => none
  | (a, b) :: t, k => if a = k then some b else alookup t k

/-- `d[k] = v`: replace in place if the key exists, else append (CPython
insertion order). -/
def aupdate {α β : Type} [DecidableEq α] : List (α × β) → α → β → List (α × β)
  | [], k, v => [(k, v)]
  | (a, b) :: t, k, v => if a = k then (k, v) :: t else (a, b) :: aupdate t k v

/-- `del d[k]` for a key that may be absent (callers model `KeyError`
separately when the source would raise).  A `dict` never holds a duplicate
key, so dropping every pair with the key is the faithful model. -/
def aremove {α β : Type} [DecidableEq α] : List (α × β) → α → List (α × β)
  | [], _ => []
  | (a, b) :: t, k => if a = k then aremove t k else (a, b) :: aremove t k

/-! ## Tokens (`TokenType`, `Token`) -/

inductive TokenType where
  | gname | lname | number
  | colon
  | lparen | rparen | lbrack | rbrack
  | plus | minus
  | atT
  | quoi | semi
deriving DecidableEq, Repr

/-- A token value is `None`, a string (names) or an integer literal. -/
inductive TokVal where
  | vnone
  | vstr (s : String)
  | vnum (n : Nat)
deriving DecidableEq, Repr

structure Token where
  tt : TokenType
  val : TokVal
  lptr : Nat
deriving DecidableEq, Repr

/-! ## Diagnostics

One constructor per `_err` / `_warn` call site in the source; the executor's
sites are included as well. -/

inductive Diag where
  | badCharLocal (lptr : Nat) (c : Char)
  | badCharProgram (lptr : Nat) (c : Char)
  | malformedLine (lptr : Nat)
  | expectedAssignment (lptr : Nat)
  | bangAsValue (lptr : Nat)
  | badOpenerInExpr (lptr : Nat)
  | badRParen (lptr : Nat)
  | badRBrack (lptr : Nat)
  | colonOutside (lptr : Nat)
  | predicateInElse (lptr : Nat)
  | beyondEOL (lptr : Nat)
  | internalParser (lptr : Nat)
  | missingColonWarn (lptr : Nat)
  | weirdExpectWarn (lptr : Nat)
  | undefinedGlobal (lptr : Nat) (s : String)
  | undefinedLocal (lptr : Nat) (s : String)
  | malformedArith (lptr : Nat)
  | notInScopeLocal (lptr : Nat) (s : String)
deriving DecidableEq, Repr

/-! ## Lexer (`Interpreter.tokenise`)

A line is a `List Char`; lines read from stdin keep their trailing `'\n'`.
The source keeps a `mode` (`search`/`gname`/`lname`/`number`) and a string
`builder`; there is no flush after the character loop ends. -/

inductive LexMode where
  | search | gname | lname | number
deriving DecidableEq, Repr

structure LexState where
  mode : LexMode
  builder : String
  toks : List Token
  diags : List Diag
deriving DecidableEq, Repr

/-- `c.isalnum() or c == '_'` (identifier continuation characters). -/
def isIdentChar (c : Char) : Bool := c.isAlphanum || c == '_'

/-- The `tokmap` of single-character tokens. -/
def singleTok (c : Char) : Option TokenType :=
  if c == '[' then some .lbrack
  else if c == ']' then some .rbrack
  else if c == '(' then some .lparen
  else if c == ')' then some .rparen
  else if c == '@' then some .atT
  else if c == '+' then some .plus
  else if c == '-' then some .minus
  else if c == ':' then some .colon
  else if c == '?' then some .quoi
  else if c == ';' then some .semi
  else none

/-- `int(builder)` for a string of decimal digits. -/
def decValAux : Nat → List Char → Nat
  | n, [] => n
  | n, c :: cs => decValAux (10 * n + (c.toNat - 48)) cs

def decVal (s : String) : Nat := decValAux 0 s.data

/-- The `mode == search` block of the character loop. -/
def searchChar (lptr : Nat) (st : LexState) (c : Char) : LexState :=
  if c.isWhitespace then st
  else
    match singleTok c with
    | some tt => { st with toks := st.toks ++ [⟨tt, .vnone, lptr⟩] }
    | none =>
      if c.isAlpha || c == '_' then
        { st with mode := .gname, builder := st.builder.push c }
      else if c == '\'' then
        { st with mode := .lname }
      else if c.isDigit then
        { st with mode := .number, builder := st.builder.push c }
      else if c == '!' then
        { st with toks := st.toks ++ [⟨.gname, .vstr "!", lptr⟩] }
      else
        { st with diags := st.diags ++ [.badCharProgram lptr c] }

/-- One character of the tokeniser loop.  In `gname`/`number` mode a
breaking character flushes the pending token and falls through to the
`search` block; in `lname` mode a closing apostrophe is consumed, and any
other breaking character logs a diagnostic and then also falls through to
the `search` block (the source has no `continue` on that path). -/
def lexChar (lptr : Nat) (st : LexState) (c : Char) : LexState :=
  match st.mode with
  | .gname =>
    if isIdentChar c then { st with builder := st.builder.push c }
    else
      searchChar lptr
        { st with toks := st.toks ++ [⟨.gname, .vstr st.builder, lptr⟩],
                  builder := "", mode := .search } c
  | .lname =>
    if isIdentChar c then { st with builder := st.builder.push c }
    else
      let st' : LexState :=
        { st with toks := st.toks ++ [⟨.lname, .vstr st.builder, lptr⟩],
                  builder := "", mode := .search }
      if c == '\'' then st'
      else
        searchChar lptr { st' with diags := st'.diags ++ [.badCharLocal lptr c] } c
  | .number =>
    if c.isDigit then { st with builder := st.builder.push c }
    else
      searchChar lptr
        { st with toks := st.toks ++ [⟨.number, .vnum (decVal st.builder), lptr⟩],
                  builder := "", mode := .search } c
  | .search => searchChar lptr st c

def lexInit : LexState := ⟨.search, "", [], []⟩

/-- `Interpreter.tokenise` on one line: fold the character loop; the final
`builder` is dropped (there is no flush after the loop). -/
def lexLine (lptr : Nat) (cs : List Char) : LexState :=
  cs.foldl (lexChar lptr) lexInit

def tokenise (lptr : Nat) (cs : List Char) : List Token :=
  (lexLine lptr cs).toks

/-! ## Nodes and parser state (`NodeType`, `Node`, `Program`) -/

inductive NodeType where
  | seq | scope | ret
  | op | value
  | assign | lvalue
  | cycle
  | condex | ifN | elseN
  | predicate
  | expr
deriving DecidableEq, Repr

/-- The two predicate closures the parser stores (spec §9 suggests this
finite enumeration): `lambda ev: ev > 0` and `lambda ev: ev <= 0`. -/
inductive PredTest where
  | gtZero | leZero
deriving DecidableEq, Repr

/-- A node's `val` payload: `None`, a token, or a predicate tuple
`(test function, taken target, optional not-taken target)`. -/
inductive NodeVal where
  | vnone
  | vtok (t : Token)
  | vpred (test : PredTest) (taken : Nat) (fallTo : Option Nat)
deriving DecidableEq, Repr

structure PNode where
  lptr : Nat
  i : Nat
  parent : Int
  nt : NodeType
  val : NodeVal
  sig : List Nat
  children : List Nat
deriving DecidableEq, Repr

def dfltNode : PNode := ⟨0, 0, -1, .seq, .vnone, [], []⟩

/-- `Program.node(i)` (`self.nodes[i]`). -/
def nodeAt (ns : List PNode) (i : Nat) : PNode := ns.getD i dfltNode

/-- The three parser stacks are Python lists used as stacks (append / pop
at the end, top read as `stack[-1]`); here the head of the list is the top. -/
structure ProgState where
  curLptr : Nat
  nodes : List PNode
  consStack : List Nat
  activeStack : List Nat
  scopeStack : List Nat
  diags : List Diag
  pcrash : Bool
deriving DecidableEq, Repr

def progInit : ProgState :=
  ⟨0, [⟨0, 0, -1, .seq, .vnone, [0], []⟩], [0], [0], [0], [], false⟩

/-- `stack[-1]` (our concrete runs never read an empty stack; an empty
stack would be a Python `IndexError`). -/
def topD (l : List Nat) : Nat := l.headD 0

def curActive (ps : ProgState) : PNode := nodeAt ps.nodes (topD ps.activeStack)

def curConstruct (ps : ProgState) : PNode := nodeAt ps.nodes (topD ps.consStack)

def addChild (n : PNode) (c : Nat) : PNode := { n with children := n.children ++ [c] }

/-- The scope signature `".".join(str(s) for s in self.scope_stack)`,
modelled as the joined list (bottom scope first). -/
def sigOf (ps : ProgState) : List Nat := ps.scopeStack.reverse

/-- `Program.add_leaf`. -/
def addLeaf (ps : ProgState) (nt : NodeType) (val : NodeVal) : ProgState :=
  let idx := ps.nodes.length
  let parentI := topD ps.activeStack
  let n : PNode := ⟨ps.curLptr, idx, Int.ofNat parentI, nt, val, sigOf ps, []⟩
  { ps with nodes := (ps.nodes.set parentI (addChild (nodeAt ps.nodes parentI) idx)) ++ [n] }

/-- `Program.add_active`: for a `SCOPE` the new index is pushed on the
scope stack before the signature is computed. -/
def addActive (ps : ProgState) (nt : NodeType) (val : NodeVal) (construct : Bool) :
    ProgState :=
  let ps := if nt = .scope then { ps with scopeStack := ps.nodes.length :: ps.scopeStack } else ps
  let idx := ps.nodes.length
  let parentI := topD ps.activeStack
  let n : PNode := ⟨ps.curLptr, idx, Int.ofNat parentI, nt, val, sigOf ps, []⟩
  let ps := { ps with
    nodes := (ps.nodes.set parentI (addChild (nodeAt ps.nodes parentI) idx)) ++ [n],
    activeStack := idx :: ps.activeStack }
  if construct then { ps with consStack := idx :: ps.consStack } else ps

/-- `Program.conclude_active`. -/
def concludeActive (ps : ProgState) : ProgState :=
  match ps.activeStack with
  | [] => { ps with pcrash := true }
  | v :: rest =>
    let ps := { ps with activeStack := rest }
    let ps :=
      match ps.scopeStack with
      | [] => { ps with pcrash := true }
      | s :: srest => if v = s then { ps with scopeStack := srest } else ps
    match ps.consStack with
    | [] => { ps with pcrash := true }
    | c :: crest => if v = c then { ps with consStack := crest } else ps

/-- `Program.rebase_when`: pop actives until the check holds.  The check
reads the current state each iteration (the Python lambdas close over
`prog`).  Fuelled by the active-stack depth; exhaustion models the
`IndexError` the source would hit. -/
def rebaseWhen : Nat → (ProgState → PNode → Bool) → ProgState → ProgState
  | 0, _, ps => { ps with pcrash := true }
  | f + 1, ck, ps =>
    if ck ps (curActive ps) then ps else rebaseWhen f ck (concludeActive ps)

def rebaseFuel (ps : ProgState) : Nat := ps.activeStack.length + 1

/-- `Program.conclude_when`. -/
def concludeWhen (ck : ProgState → PNode → Bool) (ps : ProgState) : ProgState :=
  concludeActive (rebaseWhen (rebaseFuel ps) ck ps)

/-- `Program.conclude_construct`. -/
def concludeConstruct (ps : ProgState) : ProgState :=
  concludeWhen (fun ps n => n.i = topD ps.consStack) ps

/-- `Program.rebase_construct`. -/
def rebaseConstruct (ps : ProgState) : ProgState :=
  rebaseWhen (rebaseFuel ps) (fun ps n => n.i = topD ps.consStack) ps

/-! ## Parser (`Interpreter.parse`) -/

/-- The parser expectation states. -/
inductive Expect where
  | initial | assignE | parenContents | scopeRet | exprVal | exprOp | atEnd
deriving DecidableEq, Repr

/-- Outcome of one trip through the token loop body: continue with the next
token, reprocess the same token (`index -= 1`), `break`, or `terminate()`. -/
inductive PStep where
  | cont (ps : ProgState) (e : Expect)
  | redo (ps : ProgState) (e : Expect)
  | brk (ps : ProgState) (e : Expect)
  | halt (ps : ProgState)
deriving Repr

/-- `while prog.construct().nt == NodeType.CONDEX: prog.conclude_construct()`
(used by both closers).  Fuelled by the construct-stack depth. -/
def closeCondexes : Nat → ProgState → ProgState
  | 0, ps => { ps with pcrash := true }
  | f + 1, ps =>
    if (curConstruct ps).nt = .condex then closeCondexes f (concludeConstruct ps)
    else ps

/-- The `COLON`-inside-construct handling of the `expr_op` block, shared by
a real colon and the implied colon recovery (`implied` selects whether the
current token is reprocessed afterwards, i.e. `index -= 1`). -/
def handleColon (ps : ProgState) (implied : Bool) : PStep :=
  if (curConstruct ps).nt = .cycle ∨ (curConstruct ps).nt = .condex then
    if (curConstruct ps).nt = .condex then
      let ps := rebaseWhen (rebaseFuel ps) (fun _ n => n.nt = .ifN ∨ n.nt = .elseN) ps
      if (curActive ps).nt = .elseN then
        .halt { ps with diags := ps.diags ++ [.predicateInElse ps.curLptr] }
      else
        let ps := addActive ps .expr .vnone false
        if implied then .redo ps .exprVal else .cont ps .exprVal
    else
      let ps := rebaseConstruct ps
      let ps := addActive ps .expr .vnone false
      if implied then .redo ps .exprVal else .cont ps .exprVal
  else
    .brk { ps with diags := ps.diags ++ [.colonOutside ps.curLptr] } .exprOp

/-- The `expect == expr_val` block. -/
def stepExprVal (ps : ProgState) (tok : Token) : PStep :=
  if tok.tt = .quoi then
    let ps := addActive ps .condex .vnone true
    let ps := addActive ps .ifN .vnone false
    let ps := addActive ps .predicate
      (.vpred .gtZero (topD ps.consStack) (some (topD ps.activeStack))) false
    let ps := addActive ps .expr .vnone false
    .cont ps .exprVal
  else if tok.tt = .gname ∨ tok.tt = .lname ∨ tok.tt = .number then
    if tok.val = .vstr "!" then
      .brk { ps with diags := ps.diags ++ [.bangAsValue ps.curLptr] } .exprVal
    else
      .cont (addLeaf ps .value (.vtok tok)) .exprOp
  else if tok.tt = .lparen then
    .cont ps .parenContents
  else if tok.tt = .lbrack then
    let ps := addActive ps .cycle .vnone true
    let ps := addActive ps .predicate
      (.vpred .leZero (topD ps.consStack) none) false
    let ps := addActive ps .expr .vnone false
    .cont ps .exprVal
  else
    .halt { ps with diags := ps.diags ++ [.internalParser ps.curLptr] }

/-- The `expect == expr_op` block (also reached by fallthrough from
`initial` on a closer). -/
def stepExprOp (ps : ProgState) (tok : Token) : PStep :=
  if tok.tt = .plus ∨ tok.tt = .minus then
    .cont (addLeaf ps .op (.vtok tok)) .exprVal
  else if tok.tt = .lparen ∨ tok.tt = .lbrack then
    if (curConstruct ps).nt = .cycle ∨ (curConstruct ps).nt = .condex then
      handleColon { ps with diags := ps.diags ++ [.missingColonWarn ps.curLptr] } true
    else
      .halt { ps with diags := ps.diags ++ [.badOpenerInExpr ps.curLptr] }
  else if tok.tt = .rparen then
    let ps := closeCondexes (ps.consStack.length + 1) ps
    if (curConstruct ps).nt = .expr ∨ (curConstruct ps).nt = .scope then
      .cont (concludeConstruct ps) .exprOp
    else
      .halt { ps with diags := ps.diags ++ [.badRParen ps.curLptr] }
  else if tok.tt = .rbrack then
    let ps := closeCondexes (ps.consStack.length + 1) ps
    if (curConstruct ps).nt = .cycle then
      .cont (concludeConstruct ps) .exprOp
    else
      .halt { ps with diags := ps.diags ++ [.badRBrack ps.curLptr] }
  else if tok.tt = .colon then
    handleColon ps false
  else if tok.tt = .quoi then
    if (curConstruct ps).nt = .condex then
      let ps := rebaseConstruct ps
      let ps := addActive ps .ifN .vnone false
      let ps := addActive ps .predicate
        (.vpred .gtZero (topD ps.consStack) (some (topD ps.activeStack))) false
      let ps := addActive ps .expr .vnone false
      .cont ps .exprVal
    else
      .halt { ps with diags := ps.diags ++ [.internalParser ps.curLptr] }
  else if tok.tt = .semi then
    if (curConstruct ps).nt = .condex then
      let ps := rebaseConstruct ps
      let ps := addActive ps .elseN .vnone false
      let ps := addActive ps .expr .vnone false
      .cont ps .exprVal
    else
      .halt { ps with diags := ps.diags ++ [.internalParser ps.curLptr] }
  else
    .halt { ps with diags := ps.diags ++ [.internalParser ps.curLptr] }

/-- One iteration of the token loop.  The source is a chain of
`if expect == …:` blocks; the only fallthrough that re-dispatches is
`initial` → `expr_op` on a closer, and `paren_contents` / `scope_ret` /
unmatched tokens fall to the internal-error `terminate()`. -/
def parseStep (ps : ProgState) (e : Expect) (tok : Token) : PStep :=
  match e with
  | .initial =>
    if tok.tt = .gname ∨ tok.tt = .lname then
      let ps := addActive ps .assign .vnone false
      let ps := addLeaf ps .lvalue (.vtok tok)
      .cont ps .assignE
    else if tok.tt = .rparen ∨ tok.tt = .rbrack then
      stepExprOp ps tok
    else
      .halt { ps with diags := ps.diags ++ [.malformedLine ps.curLptr] }
  | .assignE =>
    if tok.tt = .colon then
      .cont (addActive ps .expr .vnone false) .exprVal
    else
      .halt { ps with diags := ps.diags ++ [.expectedAssignment ps.curLptr] }
  | .exprVal => stepExprVal ps tok
  | .exprOp => stepExprOp ps tok
  | .parenContents =>
    if tok.tt = .atT then
      .cont (addActive ps .scope .vnone true) .scopeRet
    else
      .redo (addActive ps .expr .vnone true) .exprVal
  | .scopeRet =>
    if tok.tt = .gname then
      let ps := addActive ps .ret (.vtok tok) false
      let ps := addActive ps .seq .vnone false
      .cont ps .atEnd
    else
      .halt { ps with diags := ps.diags ++ [.internalParser ps.curLptr] }
  | .atEnd =>
    .brk { ps with diags := ps.diags ++ [.beyondEOL ps.curLptr] } .atEnd

/-- The token loop.  A `redo` reprocesses the same token, so the fuel is
twice the token count plus one. -/
def parseToksF : Nat → ProgState → Expect → List Token → ProgState × Expect × Bool
  | _, ps, e, [] => (ps, e, false)
  | 0, ps, e, _ => ({ ps with pcrash := true }, e, false)
  | f + 1, ps, e, t :: rest =>
    match parseStep ps e t with
    | .cont ps' e' => parseToksF f ps' e' rest
    | .redo ps' e' => parseToksF f ps' e' (t :: rest)
    | .brk ps' e' => (ps', e', false)
    | .halt ps' => (ps', e, true)

/-- The end-of-line rebase loop of `Interpreter.parse`. -/
def lineRebase : Nat → ProgState → ProgState
  | 0, ps => { ps with pcrash := true }
  | f + 1, ps =>
    if (curActive ps).nt = .seq then ps
    else if (curActive ps).nt = .elseN then
      lineRebase f (concludeActive (concludeConstruct ps))
    else if (curActive ps).i = topD ps.consStack then ps
    else lineRebase f (concludeActive ps)

/-- `Interpreter.parse` on one line of tokens.  Returns the new state and
whether `terminate()` was called. -/
def parseLine (ps : ProgState) (lptr : Nat) (toks : List Token) : ProgState × Bool :=
  let ps := { ps with curLptr := lptr }
  let r := parseToksF (2 * toks.length + 1) ps .initial toks
  let ps := r.1
  let e := r.2.1
  if r.2.2 then (ps, true)
  else
    let ps :=
      if e = .initial ∨ e = .atEnd ∨ e = .exprOp then ps
      else { ps with diags := ps.diags ++ [.weirdExpectWarn lptr] }
    (lineRebase (ps.activeStack.length + 1) ps, false)

/-- `Interpreter.feed` over a whole program; once `terminate()` fires no
further lines are processed (the Python process has exited). -/
structure Interp where
  prog : ProgState
  halted : Bool
deriving Repr

def interpInit : Interp := ⟨progInit, false⟩

def feedToks (it : Interp) (lptr : Nat) (toks : List Token) : Interp :=
  if it.halted then it
  else
    let r := parseLine it.prog lptr toks
    ⟨r.1, r.2⟩

def feedLine (it : Interp) (lptr : Nat) (cs : List Char) : Interp :=
  if it.halted then it
  else
    let st := lexLine lptr cs
    feedToks { it with prog := { it.prog with diags := it.prog.diags ++ st.diags } } lptr st.toks

def feedAll (lines : List (List Char)) : Interp :=
  (lines.enum).foldl (fun it p => feedLine it p.1 p.2) interpInit

def feedAllToks (lines : List (List Token)) : Interp :=
  (lines.enum).foldl (fun it p => feedToks it p.1 p.2) interpInit

/-! ## Runtime values -/

/-- The dynamic values the executor stores in `node_values` / `var_values`:
Python `int`, `bool` (predicate results), `list` (cycle results) and `None`
(the unset value a fresh `LVALUE` gets). -/
inductive Value where
  | vint (n : Int)
  | vbool (b : Bool)
  | vlist (l : List Value)
  | vnone

mutual

def Value.reprV : Value → String
  | .vint n => toString n
  | .vbool b => toString b
  | .vnone => "None"
  | .vlist l => "[" ++ Value.reprL l ++ "]"

def Value.reprL : List Value → String
  | [] => ""
  | [x] => Value.reprV x
  | x :: xs => Value.reprV x ++ ", " ++ Value.reprL xs

end


instance : Repr Value := ⟨fun v _ => Value.reprV v⟩

/-- Python truthiness, used by `if node_values[...]:`. -/
def pyTruthy : Value → Bool
  | .vint n => decide (n ≠ 0)
  | .vbool b => b
  | .vlist l => !l.isEmpty
  | .vnone => false

/-- `int(x)` view used by arithmetic and the comparison closures: Python
treats `bool` as an integer; `None` and lists have no integer view (a
`TypeError`). -/
def asArith : Value → Option Int
  | .vint n => some n
  | .vbool b => some (if b then 1 else 0)
  | _ => none

/-- `left + right` / `left - right` of the RPN reduction.  Python `+`
also concatenates two lists; any other mix raises `TypeError` (`none`).
An operator other than `PLUS`/`MINUS` leaves `result = None` in the
source. -/
def applyOp (tt : TokenType) (l r : Value) : Option Value :=
  match tt with
  | .plus =>
    match l, r with
    | .vlist a, .vlist b => some (.vlist (a ++ b))
    | _, _ =>
      match asArith l, asArith r with
      | some x, some y => some (.vint (x + y))
      | _, _ => none
  | .minus =>
    match asArith l, asArith r with
    | some x, some y => some (.vint (x - y))
    | _, _ => none
  | _ => some .vnone

/-- Apply one of the two stored predicate closures. -/
def predTest (t : PredTest) (v : Value) : Option Bool :=
  match asArith v with
  | some x => some (match t with | .gtZero => decide (0 < x) | .leZero => decide (x ≤ 0))
  | none => none

/-! ## Shunting-yard + RPN reduction (the `EXPR` branch of `execute`) -/

/-- An entry of the shunting-yard output queue / input scan: `(VALUE, v)`
or `(OP, TokenType)`. -/
inductive SYItem where
  | opnd (v : Value)
  | oper (tt : TokenType)
deriving Repr

/-- `precedence[...]`: `+` and `-` share precedence 1 (only those two ever
reach the table). -/
def prec : TokenType → Nat := fun _ => 1

/-- The inner `while len(opstack):` of the shunting yard (opstack head is
its top).  Returns the stack and queue after the loop. -/
def syWhile (cur : TokenType) : List TokenType → List SYItem → List TokenType × List SYItem
  | [], out => ([], out)
  | peek :: restS, out =>
    if prec cur ≤ prec peek then syWhile cur restS (out ++ [.oper peek])
    else (cur :: peek :: restS, out)

/-- Handling of one `OP` child: run the inner while-loop, then
`if not len(opstack): opstack.append(...)`. -/
def syOp (stk : List TokenType) (out : List SYItem) (cur : TokenType) :
    List TokenType × List SYItem :=
  let r := syWhile cur stk out
  if r.1.isEmpty then ([cur], r.2) else r

/-- One child of the scan: an `OP` goes through `syOp`, an operand is
appended to the output queue. -/
def syStep (p : List TokenType × List SYItem) (it : SYItem) : List TokenType × List SYItem :=
  match it with
  | .oper tt => syOp p.1 p.2 tt
  | .opnd v => (p.1, p.2 ++ [.opnd v])

/-- The full conversion of the children scan to Reverse Polish, including
the final `while opstack:` flush. -/
def syRun (items : List SYItem) : List SYItem :=
  let r := items.foldl syStep ([], [])
  r.2 ++ r.1.map .oper

/-- Outcome of the `EXPR` evaluation: a value, the fatal
"Malformed Arithmatic" `terminate()`, or an uncaught Python exception. -/
inductive EvalRes where
  | ok (v : Value)
  | fatal
  | crash
deriving Repr

/-- The RPN reduction loop (`ptr` scan with pops and an insert).  Exiting
with a single `(VALUE, v)` yields `v`; an empty queue models the
`IndexError` of `outqueue[0]`.  The loop is fuelled structurally: every
iteration strictly decreases `2 * length - ptr`, which starts at most at
`2 * length`, so the fuel `2 * length + 1` used by `rpnEval` never runs
out (the fuel-out arm is unreachable). -/
def rpnEvalF : Nat → List SYItem → Nat → EvalRes
  | 0, _, _ => .crash
  | f + 1, q, ptr =>
    if q.length ≤ 1 then
      match q with
      | [.opnd v] => .ok v
      | _ => .crash
    else if q.length ≤ ptr then .fatal
    else
      match q.get? ptr with
      | some (.opnd _) => rpnEvalF f q (ptr + 1)
      | some (.oper tt) =>
        if ptr < 2 then .fatal
        else
          match q.get? (ptr - 2), q.get? (ptr - 1) with
          | some (.opnd a), some (.opnd b) =>
            match applyOp tt a b with
            | some v => rpnEvalF f (q.take (ptr - 2) ++ .opnd v :: q.drop (ptr + 1)) (ptr - 1)
            | none => .crash
          | _, _ => .crash
      | none => .crash

def rpnEval (q : List SYItem) (ptr : Nat) : EvalRes :=
  rpnEvalF (2 * q.length + 1) q ptr

/-! ## Post-order linearization (`Node.rec_list`) -/

/-- `Node.rec_list`, fuelled by the arena size (children always carry a
larger index than their parent, so the tree depth is below the arena
size). -/
def recListF : Nat → List PNode → Nat → List Nat
  | 0, _, i => [i]
  | f + 1, a, i => ((nodeAt a i).children.map (recListF f a)).flatten ++ [i]

def recList (a : List PNode) (i : Nat) : List Nat := recListF a.length a i

/-! ## Executor state and step (`Interpreter.execute`) -/

structure ExecState where
  scopeMap : List (List Nat × List String)
  cache : List (Nat × Value)
  vars : List (String × Value)
  toExec : List Nat
  jump : Option Nat
  output : List Value
  diags : List Diag
  halted : Bool
  crashed : Bool
  /-- Ghost instrumentation (not in the source): for each `CYCLE` node, how
  many successful predicate checks the cycle has consumed — i.e. how many
  times the `CYCLE` branch took its body-appending path — since the cycle
  last started executing afresh. -/
  succ : List (Nat × Nat)
deriving Repr

def initExec (a : List PNode) : ExecState :=
  ⟨[([0], [])], [], [], recList a 0, none, [], [], false, false, []⟩

def crashed (es : ExecState) : ExecState := { es with crashed := true }

def fatalDiag (es : ExecState) (d : Diag) : ExecState :=
  { es with diags := es.diags ++ [d], halted := true }

/-- The `VALUE` branch. -/
def execValue (es : ExecState) (nd : PNode) : ExecState :=
  match nd.val with
  | .vtok t =>
    match t.tt, t.val with
    | .gname, .vstr s =>
      match alookup es.vars s with
      | some v => { es with cache := aupdate es.cache nd.i v }
      | none => fatalDiag es (.undefinedGlobal nd.lptr s)
    | .lname, .vstr s =>
      match alookup es.vars s with
      | some v => { es with cache := aupdate es.cache nd.i v }
      | none => fatalDiag es (.undefinedLocal nd.lptr s)
    | .number, .vnum n => { es with cache := aupdate es.cache nd.i (.vint n) }
    | _, _ => crashed es
  | _ => crashed es

/-- Children → scan items for the shunting yard: an `OP` child contributes
`(OP, child.val.tt)`, anything else contributes `(VALUE, node_values[c])`
(`KeyError` if absent). -/
def buildItems (a : List PNode) (cache : List (Nat × Value)) :
    List Nat → Option (List SYItem)
  | [] => some []
  | c :: cs =>
    let nd := nodeAt a c
    if nd.nt = .op then
      match nd.val with
      | .vtok t =>
        match buildItems a cache cs with
        | some r => some (.oper t.tt :: r)
        | none => none
      | _ => none
    else
      match alookup cache c with
      | some v =>
        match buildItems a cache cs with
        | some r => some (.opnd v :: r)
        | none => none
      | none => none

/-- The `EXPR` branch. -/
def execExpr (a : List PNode) (es : ExecState) (nd : PNode) : ExecState :=
  match nd.children with
  | [c] =>
    match alookup es.cache c with
    | some v => { es with cache := aupdate es.cache nd.i v }
    | none => crashed es
  | cs =>
    match buildItems a es.cache cs with
    | some items =>
      match rpnEval (syRun items) 0 with
      | .ok v => { es with cache := aupdate es.cache nd.i v }
      | .fatal => fatalDiag es (.malformedArith nd.lptr)
      | .crash => crashed es
    | none => crashed es

/-- The `LVALUE` branch: initialize a fresh name to the unset value and,
for a local, record it in the scope map under the node's signature. -/
def execLValue (es : ExecState) (nd : PNode) : ExecState :=
  match nd.val with
  | .vtok t =>
    match t.val with
    | .vstr s =>
      if (alookup es.vars s).isNone ∧ s ≠ "!" then
        let es := { es with vars := aupdate es.vars s .vnone }
        if t.tt = .lname then
          match alookup es.scopeMap nd.sig with
          | none => { es with scopeMap := aupdate es.scopeMap nd.sig [s] }
          | some l => { es with scopeMap := aupdate es.scopeMap nd.sig (l ++ [s]) }
        else es
      else es
    | _ => crashed es
  | _ => crashed es

/-- The `ASSIGN` branch: `!` prints, anything else stores. -/
def execAssign (a : List PNode) (es : ExecState) (nd : PNode) : ExecState :=
  match nd.children with
  | c0 :: c1 :: _ =>
    match (nodeAt a c0).val with
    | .vtok t =>
      match t.val with
      | .vstr s =>
        match alookup es.cache c1 with
        | some v =>
          if s = "!" then { es with output := es.output ++ [v] }
          else { es with vars := aupdate es.vars s v }
        | none => crashed es
      | _ => crashed es
    | _ => crashed es
  | _ => crashed es

/-- The `RETURN` branch. -/
def execReturn (es : ExecState) (nd : PNode) : ExecState :=
  match nd.val with
  | .vtok t =>
    match t.val with
    | .vstr s =>
      if es.scopeMap.any (fun p => p.2.contains s) then
        match alookup es.vars s with
        | some v => { es with cache := aupdate es.cache nd.i v }
        | none => crashed es
      else fatalDiag es (.notInScopeLocal nd.lptr s)
    | _ => crashed es
  | _ => crashed es

/-- `del var_values[var]` over the recorded locals (`KeyError` if one is
missing). -/
def delVars : List String → List (String × Value) → Option (List (String × Value))
  | [], vs => some vs
  | n :: ns, vs =>
    if (alookup vs n).isSome then delVars ns (aremove vs n) else none

/-- The `SCOPE` branch: propagate the child's value, reclaim the scope's
recorded locals, drop the signature. -/
def execScope (es : ExecState) (nd : PNode) : ExecState :=
  match nd.children with
  | c0 :: _ =>
    match alookup es.cache c0 with
    | some v =>
      let es := { es with cache := aupdate es.cache nd.i v }
      match alookup es.scopeMap nd.sig with
      | some names =>
        match delVars names es.vars with
        | some vs => { es with vars := vs, scopeMap := aremove es.scopeMap nd.sig }
        | none => crashed es
      | none => es
    | none => crashed es
  | _ => crashed es

/-- The `PREDICATE` branch: cache the test result; on success jump to the
taken target, otherwise to the not-taken target when it exists. -/
def execPredicate (es : ExecState) (nd : PNode) : ExecState :=
  match nd.val with
  | .vpred t taken fallTo =>
    match nd.children with
    | c0 :: _ =>
      match alookup es.cache c0 with
      | some pv =>
        match predTest t pv with
        | some b =>
          let es := { es with cache := aupdate es.cache nd.i (.vbool b) }
          if b then { es with jump := some taken }
          else
            match fallTo with
            | some j => { es with jump := some j }
            | none => es
        | none => crashed es
      | none => crashed es
    | _ => crashed es
  | _ => crashed es

/-- The `CYCLE` branch.  The predicate value is the first child's cached
(boolean) result: truthy means the test `ev <= 0` succeeded and the loop is
over; otherwise the body value is appended and the cycle's subtree is
re-linearized, its stale cache entries cleared, and prepended to the work
list. -/
def execCycle (a : List PNode) (es : ExecState) (nd : PNode) : ExecState :=
  match nd.children with
  | c0 :: crest =>
    match alookup es.cache c0 with
    | some pv =>
      if pyTruthy pv then
        match alookup es.cache nd.i with
        | none => { es with cache := aupdate es.cache nd.i (.vlist []) }
        | some _ => es
      else
        match crest with
        | c1 :: _ =>
          match alookup es.cache c1 with
          | some bv =>
            let es :=
              match alookup es.cache nd.i with
              | some (.vlist l) =>
                { es with cache := aupdate es.cache nd.i (.vlist (l ++ [bv])),
                          succ := aupdate es.succ nd.i ((alookup es.succ nd.i).getD 0 + 1) }
              | none =>
                { es with cache := aupdate es.cache nd.i (.vlist [bv]),
                          succ := aupdate es.succ nd.i ((alookup es.succ nd.i).getD 0 + 1) }
              | some _ => crashed es
            if es.crashed then es
            else
              let sub := recList a nd.i
              let dead := sub.filter (fun k => k ≠ nd.i)
              { es with
                cache := dead.foldl (fun c k => aremove c k) es.cache,
                succ := dead.foldl (fun c k => aremove c k) es.succ,
                toExec := sub ++ es.toExec }
          | none => crashed es
        | [] => crashed es
    | none => crashed es
  | [] => crashed es

/-- The child scan of a first-visit `CONDEX`: schedule the first taken
`IF` arm's body (recording the body index as placeholder) or inherit the
`ELSE` arm's value. -/
def condexScan (a : List PNode) (es : ExecState) (i : Nat) :
    List Nat → ExecState
  | [] => es
  | c :: cs =>
    let blk := nodeAt a c
    if blk.nt = .ifN then
      match blk.children with
      | p :: _ =>
        match alookup es.cache p with
        | some pv =>
          if pyTruthy pv then
            match blk.children.get? 1 with
            | some body =>
              { es with
                toExec := recList a body ++ i :: es.toExec,
                cache := aupdate es.cache i (.vint (Int.ofNat body)) }
            | none => crashed es
          else condexScan a es i cs
        | none => crashed es
      | [] => crashed es
    else if blk.nt = .elseN then
      match alookup es.cache c with
      | some v => condexScan a { es with cache := aupdate es.cache i v } i cs
      | none => crashed es
    else condexScan a es i cs

/-- The `CONDEX` branch. -/
def execCondex (a : List PNode) (es : ExecState) (nd : PNode) : ExecState :=
  match alookup es.cache nd.i with
  | some v =>
    match v with
    | .vint k =>
      match alookup es.cache k.toNat with
      | some bv => { es with cache := aupdate es.cache nd.i bv }
      | none => crashed es
    | _ => crashed es
  | none => condexScan a es nd.i nd.children

/-- The `ELSE` branch. -/
def execElse (es : ExecState) (nd : PNode) : ExecState :=
  match nd.children with
  | c0 :: _ =>
    match alookup es.cache c0 with
    | some v => { es with cache := aupdate es.cache nd.i v }
    | none => crashed es
  | _ => crashed es

/-- Dispatch on the node kind (`SEQ`, `OP` and `IF` have no branch in the
source and do nothing). -/
def execNode (a : List PNode) (es : ExecState) (nd : PNode) : ExecState :=
  match nd.nt with
  | .value => execValue es nd
  | .expr => execExpr a es nd
  | .lvalue => execLValue es nd
  | .assign => execAssign a es nd
  | .ret => execReturn es nd
  | .scope => execScope es nd
  | .predicate => execPredicate es nd
  | .cycle => execCycle a es nd
  | .condex => execCondex a es nd
  | .elseN => execElse es nd
  | .seq => es
  | .op => es
  | .ifN => es

/-- One iteration of the `while to_exec:` loop: pop a node; while a jump
is pending skip everything until the target, which then executes
normally. -/
def execStep (a : List PNode) (es : ExecState) : ExecState :=
  if es.halted ∨ es.crashed then es
  else
    match es.toExec with
    | [] => es
    | i :: rest =>
      let es := { es with toExec := rest }
      match es.jump with
      | some j =>
        if i = j then execNode a { es with jump := none } (nodeAt a i)
        else es
      | none => execNode a es (nodeAt a i)

def execDone (es : ExecState) : Bool := es.halted || es.crashed || es.toExec.isEmpty

/-- Fuelled execution: `some` when the loop concludes (normally or by a
fatal diagnostic or crash), `none` when the fuel runs out first. -/
def runE (a : List PNode) : Nat → ExecState → Option ExecState
  | 0, es => if execDone es then some es else none
  | f + 1, es => if execDone es then some es else runE a f (execStep a es)

def stepN (a : List PNode) : Nat → ExecState → ExecState
  | 0, es => es
  | n + 1, es => execStep a (stepN a n es)

/-! ## The claim programs -/

def mkG (s : String) (lp : Nat) : Token := ⟨.gname, .vstr s, lp⟩

def mkL (s : String) (lp : Nat) : Token := ⟨.lname, .vstr s, lp⟩

def mkN (n : Nat) (lp : Nat) : Token := ⟨.number, .vnum n, lp⟩

def mkT (tt : TokenType) (lp : Nat) : Token := ⟨tt, .vnone, lp⟩

/-- The program of spec scenario 3: `n: 3` / `r: [n : n - 1]` / `!: n`. -/
def p1 : List (List Char) := ["n: 3\n".toList, "r: [n : n - 1]\n".toList, "!: n\n".toList]

/-- The arena the parser builds for `p1` (checked against the parse by
`a1_parse`); kept as a literal so the executor lemmas reduce cheaply. -/
def a1 : List PNode :=
  [⟨0, 0, -1, .seq, .vnone, [0], [1, 5, 16]⟩,
   ⟨0, 1, 0, .assign, .vnone, [0], [2, 3]⟩,
   ⟨0, 2, 1, .lvalue, .vtok ⟨.gname, .vstr "n", 0⟩, [0], []⟩,
   ⟨0, 3, 1, .expr, .vnone, [0], [4]⟩,
   ⟨0, 4, 3, .value, .vtok ⟨.number, .vnum 3, 0⟩, [0], []⟩,
   ⟨1, 5, 0, .assign, .vnone, [0], [6, 7]⟩,
   ⟨1, 6, 5, .lvalue, .vtok ⟨.gname, .vstr "r", 1⟩, [0], []⟩,
   ⟨1, 7, 5, .expr, .vnone, [0], [8]⟩,
   ⟨1, 8, 7, .cycle, .vnone, [0], [9, 12]⟩,
   ⟨1, 9, 8, .predicate, .vpred .leZero 8 none, [0], [10]⟩,
   ⟨1, 10, 9, .expr, .vnone, [0], [11]⟩,
   ⟨1, 11, 10, .value, .vtok ⟨.gname, .vstr "n", 1⟩, [0], []⟩,
   ⟨1, 12, 8, .expr, .vnone, [0], [13, 14, 15]⟩,
   ⟨1, 13, 12, .value, .vtok ⟨.gname, .vstr "n", 1⟩, [0], []⟩,
   ⟨1, 14, 12, .op, .vtok ⟨.minus, .vnone, 1⟩, [0], []⟩,
   ⟨1, 15, 12, .value, .vtok ⟨.number, .vnum 1, 1⟩, [0], []⟩,
   ⟨2, 16, 0, .assign, .vnone, [0], [17, 18]⟩,
   ⟨2, 17, 16, .lvalue, .vtok ⟨.gname, .vstr "!", 2⟩, [0], []⟩,
   ⟨2, 18, 16, .expr, .vnone, [0], [19]⟩,
   ⟨2, 19, 18, .value, .vtok ⟨.gname, .vstr "n", 2⟩, [0], []⟩]

/-- The executor state at the top of the cycle body of `p1`, parameterized
by the list accumulated so far for the cycle node (index 8) and its ghost
check counter: after 13 steps the run reaches `iter1 [2] 1`, and each
further 8 steps map `iter1 l k` to `iter1 (l ++ [2]) (k + 1)`. -/
def iter1 (l : List Value) (k : Nat) : ExecState :=
  { scopeMap := [([0], [])],
    cache := [(4, .vint 3), (3, .vint 3), (8, .vlist l)],
    vars := [("n", .vint 3), ("r", .vnone)],
    toExec := [11, 10, 9, 13, 14, 15, 12, 8, 7, 5, 17, 19, 18, 16, 0],
    jump := none, output := [], diags := [], halted := false, crashed := false,
    succ := [(8, k)] }

/-- The 13 executor states of `p1` leading from the initial state to the
top of the first cycle iteration (`iter1 [2] 1`). -/
def c1pre : Nat → ExecState
  | 0 =>
    { scopeMap := [([0], [])], cache := [], vars := [],
      toExec := [2, 4, 3, 1, 6, 11, 10, 9, 13, 14, 15, 12, 8, 7, 5, 17, 19, 18, 16, 0],
      jump := none, output := [], diags := [], halted := false, crashed := false, succ := [] }
  | 1 =>
    { scopeMap := [([0], [])], cache := [], vars := [("n", .vnone)],
      toExec := [4, 3, 1, 6, 11, 10, 9, 13, 14, 15, 12, 8, 7, 5, 17, 19, 18, 16, 0],
      jump := none, output := [], diags := [], halted := false, crashed := false, succ := [] }
  | 2 =>
    { scopeMap := [([0], [])], cache := [(4, .vint 3)], vars := [("n", .vnone)],
      toExec := [3, 1, 6, 11, 10, 9, 13, 14, 15, 12, 8, 7, 5, 17, 19, 18, 16, 0],
      jump := none, output := [], diags := [], halted := false, crashed := false, succ := [] }
  | 3 =>
    { scopeMap := [([0], [])], cache := [(4, .vint 3), (3, .vint 3)], vars := [("n", .vnone)],
      toExec := [1, 6, 11, 10, 9, 13, 14, 15, 12, 8, 7, 5, 17, 19, 18, 16, 0],
      jump := none, output := [], diags := [], halted := false, crashed := false, succ := [] }
  | 4 =>
    { scopeMap := [([0], [])], cache := [(4, .vint 3), (3, .vint 3)], vars := [("n", .vint 3)],
      toExec := [6, 11, 10, 9, 13, 14, 15, 12, 8, 7, 5, 17, 19, 18, 16, 0],
      jump := none, output := [], diags := [], halted := false, crashed := false, succ := [] }
  | 5 =>
    { scopeMap := [([0], [])], cache := [(4, .vint 3), (3, .vint 3)],
      vars := [("n", .vint 3), ("r", .vnone)],
      toExec := [11, 10, 9, 13, 14, 15, 12, 8, 7, 5, 17, 19, 18, 16, 0],
      jump := none, output := [], diags := [], halted := false, crashed := false, succ := [] }
  | 6 =>
    { scopeMap := [([0], [])], cache := [(4, .vint 3), (3, .vint 3), (11, .vint 3)],
      vars := [("n", .vint 3), ("r", .vnone)],
      toExec := [10, 9, 13, 14, 15, 12, 8, 7, 5, 17, 19, 18, 16, 0],
      jump := none, output := [], diags := [], halted := false, crashed := false, succ := [] }
  | 7 =>
    { scopeMap := [([0], [])],
      cache := [(4, .vint 3), (3, .vint 3), (11, .vint 3), (10, .vint 3)],
      vars := [("n", .vint 3), ("r", .vnone)],
      toExec := [9, 13, 14, 15, 12, 8, 7, 5, 17, 19, 18, 16, 0],
      jump := none, output := [], diags := [], halted := false, crashed := false, succ := [] }
  | 8 =>
    { scopeMap := [([0], [])],
      cache := [(4, .vint 3), (3, .vint 3), (11, .vint 3), (10, .vint 3), (9, .vbool false)],
      vars := [("n", .vint 3), ("r", .vnone)],
      toExec := [13, 14, 15, 12, 8, 7, 5, 17, 19, 18, 16, 0],
      jump := none, output := [], diags := [], halted := false, crashed := false, succ := [] }
  | 9 =>
    { scopeMap := [([0], [])],
      cache := [(4, .vint 3), (3, .vint 3), (11, .vint 3), (10, .vint 3), (9, .vbool false),
      (13, .vint 3)],
      vars := [("n", .vint 3), ("r", .vnone)],
      toExec := [14, 15, 12, 8, 7, 5, 17, 19, 18, 16, 0],
      jump := none, output := [], diags := [], halted := false, crashed := false, succ := [] }
  | 10 =>
    { scopeMap := [([0], [])],
      cache := [(4, .vint 3), (3, .vint 3), (11, .vint 3), (10, .vint 3), (9, .vbool false),
      (13, .vint 3)],
      vars := [("n", .vint 3), ("r", .vnone)],
      toExec := [15, 12, 8, 7, 5, 17, 19, 18, 16, 0],
      jump := none, output := [], diags := [], halted := false, crashed := false, succ := [] }
  | 11 =>
    { scopeMap := [([0], [])],
      cache := [(4, .vint 3), (3, .vint 3), (11, .vint 3), (10, .vint 3), (9, .vbool false),
      (13, .vint 3), (15, .vint 1)],
      vars := [("n", .vint 3), ("r", .vnone)],
      toExec := [12, 8, 7, 5, 17, 19, 18, 16, 0],
      jump := none, output := [], diags := [], halted := false, crashed := false, succ := [] }
  | 12 =>
    { scopeMap := [([0], [])],
      cache := [(4, .vint 3), (3, .vint 3), (11, .vint 3), (10, .vint 3), (9, .vbool false),
      (13, .vint 3), (15, .vint 1), (12, .vint 2)],
      vars := [("n", .vint 3), ("r", .vnone)],
      toExec := [8, 7, 5, 17, 19, 18, 16, 0],
      jump := none, output := [], diags := [], halted := false, crashed := false, succ := [] }
  | _ => iter1 [.vint 2] 1

/-- The 8 executor states of one full cycle iteration of `p1`, starting
from `iter1 l k` and ending at `iter1 (l ++ [2]) (k + 1)`. -/
def c1iter (l : List Value) (k : Nat) : Nat → ExecState
  | 0 => iter1 l k
  | 1 =>
    { scopeMap := [([0], [])],
      cache := [(4, .vint 3), (3, .vint 3), (8, .vlist l), (11, .vint 3)],
      vars := [("n", .vint 3), ("r", .vnone)],
      toExec := [10, 9, 13, 14, 15, 12, 8, 7, 5, 17, 19, 18, 16, 0],
      jump := none, output := [], diags := [], halted := false, crashed := false,
      succ := [(8, k)] }
  | 2 =>
    { scopeMap := [([0], [])],
      cache := [(4, .vint 3), (3, .vint 3), (8, .vlist l), (11, .vint 3), (10, .vint 3)],
      vars := [("n", .vint 3), ("r", .vnone)],
      toExec := [9, 13, 14, 15, 12, 8, 7, 5, 17, 19, 18, 16, 0],
      jump := none, output := [], diags := [], halted := false, crashed := false,
      succ := [(8, k)] }
  | 3 =>
    { scopeMap := [([0], [])],
      cache := [(4, .vint 3), (3, .vint 3), (8, .vlist l), (11, .vint 3), (10, .vint 3),
      (9, .vbool false)],
      vars := [("n", .vint 3), ("r", .vnone)],
      toExec := [13, 14, 15, 12, 8, 7, 5, 17, 19, 18, 16, 0],
      jump := none, output := [], diags := [], halted := false, crashed := false,
      succ := [(8, k)] }
  | 4 =>
    { scopeMap := [([0], [])],
      cache := [(4, .vint 3), (3, .vint 3), (8, .vlist l), (11, .vint 3), (10, .vint 3),
      (9, .vbool false), (13, .vint 3)],
      vars := [("n", .vint 3), ("r", .vnone)],
      toExec := [14, 15, 12, 8, 7, 5, 17, 19, 18, 16, 0],
      jump := none, output := [], diags := [], halted := false, crashed := false,
      succ := [(8, k)] }
  | 5 =>
    { scopeMap := [([0], [])],
      cache := [(4, .vint 3), (3, .vint 3), (8, .vlist l), (11, .vint 3), (10, .vint 3),
      (9, .vbool false), (13, .vint 3)],
      vars := [("n", .vint 3), ("r", .vnone)],
      toExec := [15, 12, 8, 7, 5, 17, 19, 18, 16, 0],
      jump := none, output := [], diags := [], halted := false, crashed := false,
      succ := [(8, k)] }
  | 6 =>
    { scopeMap := [([0], [])],
      cache := [(4, .vint 3), (3, .vint 3), (8, .vlist l), (11, .vint 3), (10, .vint 3),
      (9, .vbool false), (13, .vint 3), (15, .vint 1)],
      vars := [("n", .vint 3), ("r", .vnone)],
      toExec := [12, 8, 7, 5, 17, 19, 18, 16, 0],
      jump := none, output := [], diags := [], halted := false, crashed := false,
      succ := [(8, k)] }
  | 7 =>
    { scopeMap := [([0], [])],
      cache := [(4, .vint 3), (3, .vint 3), (8, .vlist l), (11, .vint 3), (10, .vint 3),
      (9, .vbool false), (13, .vint 3), (15, .vint 1), (12, .vint 2)],
      vars := [("n", .vint 3), ("r", .vnone)],
      toExec := [8, 7, 5, 17, 19, 18, 16, 0],
      jump := none, output := [], diags := [], halted := false, crashed := false,
      succ := [(8, k)] }
  | _ => iter1 (l ++ [.vint 2]) (k + 1)

/-- The one-line program `x: [1 : 2]`. -/
def p2 : List (List Char) := ["x: [1 : 2]\n".toList]

def a2 : List PNode :=
  [⟨0, 0, -1, .seq, .vnone, [0], [1]⟩,
   ⟨0, 1, 0, .assign, .vnone, [0], [2, 3]⟩,
   ⟨0, 2, 1, .lvalue, .vtok ⟨.gname, .vstr "x", 0⟩, [0], []⟩,
   ⟨0, 3, 1, .expr, .vnone, [0], [4]⟩,
   ⟨0, 4, 3, .cycle, .vnone, [0], [5, 8]⟩,
   ⟨0, 5, 4, .predicate, .vpred .leZero 4 none, [0], [6]⟩,
   ⟨0, 6, 5, .expr, .vnone, [0], [7]⟩,
   ⟨0, 7, 6, .value, .vtok ⟨.number, .vnum 1, 0⟩, [0], []⟩,
   ⟨0, 8, 4, .expr, .vnone, [0], [9]⟩,
   ⟨0, 9, 8, .value, .vtok ⟨.number, .vnum 2, 0⟩, [0], []⟩]

/-- The executor states of `p2` up to and including the first predicate
evaluation. -/
def c2pre : Nat → ExecState
  | 0 =>
    { scopeMap := [([0], [])], cache := [], vars := [],
      toExec := [2, 7, 6, 5, 9, 8, 4, 3, 1, 0],
      jump := none, output := [], diags := [], halted := false, crashed := false, succ := [] }
  | 1 =>
    { scopeMap := [([0], [])], cache := [], vars := [("x", .vnone)],
      toExec := [7, 6, 5, 9, 8, 4, 3, 1, 0],
      jump := none, output := [], diags := [], halted := false, crashed := false, succ := [] }
  | 2 =>
    { scopeMap := [([0], [])], cache := [(7, .vint 1)], vars := [("x", .vnone)],
      toExec := [6, 5, 9, 8, 4, 3, 1, 0],
      jump := none, output := [], diags := [], halted := false, crashed := false, succ := [] }
  | 3 =>
    { scopeMap := [([0], [])], cache := [(7, .vint 1), (6, .vint 1)], vars := [("x", .vnone)],
      toExec := [5, 9, 8, 4, 3, 1, 0],
      jump := none, output := [], diags := [], halted := false, crashed := false, succ := [] }
  | _ =>
    { scopeMap := [([0], [])],
      cache := [(7, .vint 1), (6, .vint 1), (5, .vbool false)], vars := [("x", .vnone)],
      toExec := [9, 8, 4, 3, 1, 0],
      jump := none, output := [], diags := [], halted := false, crashed := false, succ := [] }

/-! ## C3: using the output sink as a value -/

/-- The program `!: 5` / `x: !` / `!: 6`. -/
def p3 : List (List Char) := ["!: 5\n".toList, "x: !\n".toList, "!: 6\n".toList]

def a3 : List PNode :=
  [⟨0, 0, -1, .seq, .vnone, [0], [1, 5, 8]⟩,
   ⟨0, 1, 0, .assign, .vnone, [0], [2, 3]⟩,
   ⟨0, 2, 1, .lvalue, .vtok ⟨.gname, .vstr "!", 0⟩, [0], []⟩,
   ⟨0, 3, 1, .expr, .vnone, [0], [4]⟩,
   ⟨0, 4, 3, .value, .vtok ⟨.number, .vnum 5, 0⟩, [0], []⟩,
   ⟨1, 5, 0, .assign, .vnone, [0], [6, 7]⟩,
   ⟨1, 6, 5, .lvalue, .vtok ⟨.gname, .vstr "x", 1⟩, [0], []⟩,
   ⟨1, 7, 5, .expr, .vnone, [0], []⟩,
   ⟨2, 8, 0, .assign, .vnone, [0], [9, 10]⟩,
   ⟨2, 9, 8, .lvalue, .vtok ⟨.gname, .vstr "!", 2⟩, [0], []⟩,
   ⟨2, 10, 8, .expr, .vnone, [0], [11]⟩,
   ⟨2, 11, 10, .value, .vtok ⟨.number, .vnum 6, 2⟩, [0], []⟩]

def c3pre : Nat → ExecState
  | 0 =>
    { scopeMap := [([0], [])],
      cache := [],
      vars := [],
      toExec := [2, 4, 3, 1, 6, 7, 5, 9, 11, 10, 8, 0],
      jump := none, output := [], diags := [], halted := false, crashed := false,
      succ := [] }
  | 1 =>
    { scopeMap := [([0], [])],
      cache := [],
      vars := [],
      toExec := [4, 3, 1, 6, 7, 5, 9, 11, 10, 8, 0],
      jump := none, output := [], diags := [], halted := false, crashed := false,
      succ := [] }
  | 2 =>
    { scopeMap := [([0], [])],
      cache := [(4, .vint 5)],
      vars := [],
      toExec := [3, 1, 6, 7, 5, 9, 11, 10, 8, 0],
      jump := none, output := [], diags := [], halted := false, crashed := false,
      succ := [] }
  | 3 =>
    { scopeMap := [([0], [])],
      cache := [(4, .vint 5), (3, .vint 5)],
      vars := [],
      toExec := [1, 6, 7, 5, 9, 11, 10, 8, 0],
      jump := none, output := [], diags := [], halted := false, crashed := false,
      succ := [] }
  | 4 =>
    { scopeMap := [([0], [])],
      cache := [(4, .vint 5), (3, .vint 5)],
      vars := [],
      toExec := [6, 7, 5, 9, 11, 10, 8, 0],
      jump := none, output := [.vint 5], diags := [], halted := false, crashed := false,
      succ := [] }
  | 5 =>
    { scopeMap := [([0], [])],
      cache := [(4, .vint 5), (3, .vint 5)],
      vars := [("x", .vnone)],
      toExec := [7, 5, 9, 11, 10, 8, 0],
      jump := none, output := [.vint 5], diags := [], halted := false, crashed := false,
      succ := [] }
  | _ =>
    { scopeMap := [([0], [])],
      cache := [(4, .vint 5), (3, .vint 5)],
      vars := [("x", .vnone)],
      toExec := [5, 9, 11, 10, 8, 0],
      jump := none, output := [.vint 5], diags := [], halted := false, crashed := true,
      succ := [] }

/-! ## C4: flushing a pending token at end of line -/

/-- The token the line-final lexer state still holds back, as the next
breaking character would emit it. -/
def pendingToks (lptr : Nat) (st : LexState) : List Token :=
  match st.mode with
  | .search => []
  | .gname => [⟨.gname, .vstr st.builder, lptr⟩]
  | .lname => [⟨.lname, .vstr st.builder, lptr⟩]
  | .number => [⟨.number, .vnum (decVal st.builder), lptr⟩]

/-! ## C6: expression evaluation (shunting yard + RPN reduction) -/

/-- The scan items of an alternation `v0 o1 v1 … ok vk` after `v0`. -/
def altTail : List (TokenType × Int) → List SYItem
  | [] => []
  | p :: ps => .oper p.1 :: .opnd (.vint p.2) :: altTail ps

/-- The scan items of the alternation `v0 o1 v1 … ok vk`. -/
def altItems (v0 : Int) (ps : List (TokenType × Int)) : List SYItem :=
  .opnd (.vint v0) :: altTail ps

/-- The tail of the Reverse Polish form produced for an alternation once
the operator `o` is pending on the stack. -/
def rpnTailFrom (o : TokenType) : List (TokenType × Int) → List SYItem
  | [] => [.oper o]
  | p :: ps => .oper o :: .opnd (.vint p.2) :: rpnTailFrom p.1 ps

/-- The same tail, regrouped pairwise (operand then its operator). -/
def rpnRest : List (TokenType × Int) → List SYItem
  | [] => []
  | p :: ps => .opnd (.vint p.2) :: .oper p.1 :: rpnRest ps

/-- The left-associative evaluation `(((v0 o1 v1) o2 v2) … ok vk)`. -/
def lfold (v0 : Int) (ps : List (TokenType × Int)) : Int :=
  ps.foldl (fun acc p => if p.1 = .plus then acc + p.2 else acc - p.2) v0

/-! ## Arena and executor states for the C7 scope program -/

/-- Token lines of `g: 1` / `y: (@ r` / `'r': 2` / `h: 7` / `)` / `!: y`
(token-level, as `tokenise` would produce them; the apostrophes of the
local name only select the token type). -/
def t7 : List (List Token) :=
  [[mkG "g" 0, mkT .colon 0, mkN 1 0],
   [mkG "y" 1, mkT .colon 1, mkT .lparen 1, mkT .atT 1, mkG "r" 1],
   [mkL "r" 2, mkT .colon 2, mkN 2 2],
   [mkG "h" 3, mkT .colon 3, mkN 7 3],
   [mkT .rparen 4],
   [mkG "!" 5, mkT .colon 5, mkG "y" 5]]

def a7 : List PNode :=
  [⟨0, 0, -1, .seq, .vnone, [0], [1, 5, 19]⟩,
   ⟨0, 1, 0, .assign, .vnone, [0], [2, 3]⟩,
   ⟨0, 2, 1, .lvalue, .vtok ⟨.gname, .vstr "g", 0⟩, [0], []⟩,
   ⟨0, 3, 1, .expr, .vnone, [0], [4]⟩,
   ⟨0, 4, 3, .value, .vtok ⟨.number, .vnum 1, 0⟩, [0], []⟩,
   ⟨1, 5, 0, .assign, .vnone, [0], [6, 7]⟩,
   ⟨1, 6, 5, .lvalue, .vtok ⟨.gname, .vstr "y", 1⟩, [0], []⟩,
   ⟨1, 7, 5, .expr, .vnone, [0], [8]⟩,
   ⟨1, 8, 7, .scope, .vnone, [0, 8], [9]⟩,
   ⟨1, 9, 8, .ret, .vtok ⟨.gname, .vstr "r", 1⟩, [0, 8], [10]⟩,
   ⟨1, 10, 9, .seq, .vnone, [0, 8], [11, 15]⟩,
   ⟨2, 11, 10, .assign, .vnone, [0, 8], [12, 13]⟩,
   ⟨2, 12, 11, .lvalue, .vtok ⟨.lname, .vstr "r", 2⟩, [0, 8], []⟩,
   ⟨2, 13, 11, .expr, .vnone, [0, 8], [14]⟩,
   ⟨2, 14, 13, .value, .vtok ⟨.number, .vnum 2, 2⟩, [0, 8], []⟩,
   ⟨3, 15, 10, .assign, .vnone, [0, 8], [16, 17]⟩,
   ⟨3, 16, 15, .lvalue, .vtok ⟨.gname, .vstr "h", 3⟩, [0, 8], []⟩,
   ⟨3, 17, 15, .expr, .vnone, [0, 8], [18]⟩,
   ⟨3, 18, 17, .value, .vtok ⟨.number, .vnum 7, 3⟩, [0, 8], []⟩,
   ⟨5, 19, 0, .assign, .vnone, [0], [20, 21]⟩,
   ⟨5, 20, 19, .lvalue, .vtok ⟨.gname, .vstr "!", 5⟩, [0], []⟩,
   ⟨5, 21, 19, .expr, .vnone, [0], [22]⟩,
   ⟨5, 22, 21, .value, .vtok ⟨.gname, .vstr "y", 5⟩, [0], []⟩]

def c7pre : Nat → ExecState
  | 0 =>
    { scopeMap := [([0], [])],
      cache := [],
      vars := [],
      toExec := [2, 4, 3, 1, 6, 12, 14, 13, 11, 16, 18, 17, 15, 10, 9, 8, 7, 5, 20, 22, 21, 19, 0],
      jump := none, output := [], diags := [], halted := false, crashed := false,
      succ := [] }
  | 1 =>
    { scopeMap := [([0], [])],
      cache := [],
      vars := [("g", .vnone)],
      toExec := [4, 3, 1, 6, 12, 14, 13, 11, 16, 18, 17, 15, 10, 9, 8, 7, 5, 20, 22, 21, 19, 0],
      jump := none, output := [], diags := [], halted := false, crashed := false,
      succ := [] }
  | 2 =>
    { scopeMap := [([0], [])],
      cache := [(4, .vint 1)],
      vars := [("g", .vnone)],
      toExec := [3, 1, 6, 12, 14, 13, 11, 16, 18, 17, 15, 10, 9, 8, 7, 5, 20, 22, 21, 19, 0],
      jump := none, output := [], diags := [], halted := false, crashed := false,
      succ := [] }
  | 3 =>
    { scopeMap := [([0], [])],
      cache := [(4, .vint 1), (3, .vint 1)],
      vars := [("g", .vnone)],
      toExec := [1, 6, 12, 14, 13, 11, 16, 18, 17, 15, 10, 9, 8, 7, 5, 20, 22, 21, 19, 0],
      jump := none, output := [], diags := [], halted := false, crashed := false,
      succ := [] }
  | 4 =>
    { scopeMap := [([0], [])],
      cache := [(4, .vint 1), (3, .vint 1)],
      vars := [("g", .vint 1)],
      toExec := [6, 12, 14, 13, 11, 16, 18, 17, 15, 10, 9, 8, 7, 5, 20, 22, 21, 19, 0],
      jump := none, output := [], diags := [], halted := false, crashed := false,
      succ := [] }
  | 5 =>
    { scopeMap := [([0], [])],
      cache := [(4, .vint 1), (3, .vint 1)],
      vars := [("g", .vint 1), ("y", .vnone)],
      toExec := [12, 14, 13, 11, 16, 18, 17, 15, 10, 9, 8, 7, 5, 20, 22, 21, 19, 0],
      jump := none, output := [], diags := [], halted := false, crashed := false,
      succ := [] }
  | 6 =>
    { scopeMap := [([0], []), ([0, 8], ["r"])],
      cache := [(4, .vint 1), (3, .vint 1)],
      vars := [("g", .vint 1), ("y", .vnone), ("r", .vnone)],
      toExec := [14, 13, 11, 16, 18, 17, 15, 10, 9, 8, 7, 5, 20, 22, 21, 19, 0],
      jump := none, output := [], diags := [], halted := false, crashed := false,
      succ := [] }
  | 7 =>
    { scopeMap := [([0], []), ([0, 8], ["r"])],
      cache := [(4, .vint 1), (3, .vint 1), (14, .vint 2)],
      vars := [("g", .vint 1), ("y", .vnone), ("r", .vnone)],
      toExec := [13, 11, 16, 18, 17, 15, 10, 9, 8, 7, 5, 20, 22, 21, 19, 0],
      jump := none, output := [], diags := [], halted := false, crashed := false,
      succ := [] }
  | 8 =>
    { scopeMap := [([0], []), ([0, 8], ["r"])],
      cache := [(4, .vint 1), (3, .vint 1), (14, .vint 2), (13, .vint 2)],
      vars := [("g", .vint 1), ("y", .vnone), ("r", .vnone)],
      toExec := [11, 16, 18, 17, 15, 10, 9, 8, 7, 5, 20, 22, 21, 19, 0],
      jump := none, output := [], diags := [], halted := false, crashed := false,
      succ := [] }
  | 9 =>
    { scopeMap := [([0], []), ([0, 8], ["r"])],
      cache := [(4, .vint 1), (3, .vint 1), (14, .vint 2), (13, .vint 2)],
      vars := [("g", .vint 1), ("y", .vnone), ("r", .vint 2)],
      toExec := [16, 18, 17, 15, 10, 9, 8, 7, 5, 20, 22, 21, 19, 0],
      jump := none, output := [], diags := [], halted := false, crashed := false,
      succ := [] }
  | 10 =>
    { scopeMap := [([0], []), ([0, 8], ["r"])],
      cache := [(4, .vint 1), (3, .vint 1), (14, .vint 2), (13, .vint 2)],
      vars := [("g", .vint 1), ("y", .vnone), ("r", .vint 2), ("h", .vnone)],
      toExec := [18, 17, 15, 10, 9, 8, 7, 5, 20, 22, 21, 19, 0],
      jump := none, output := [], diags := [], halted := false, crashed := false,
      succ := [] }
  | 11 =>
    { scopeMap := [([0], []), ([0, 8], ["r"])],
      cache := [(4, .vint 1), (3, .vint 1), (14, .vint 2), (13, .vint 2), (18, .vint 7)],
      vars := [("g", .vint 1), ("y", .vnone), ("r", .vint 2), ("h", .vnone)],
      toExec := [17, 15, 10, 9, 8, 7, 5, 20, 22, 21, 19, 0],
      jump := none, output := [], diags := [], halted := false, crashed := false,
      succ := [] }
  | 12 =>
    { scopeMap := [([0], []), ([0, 8], ["r"])],
      cache := [(4, .vint 1), (3, .vint 1), (14, .vint 2), (13, .vint 2), (18, .vint 7), (17, .vint 7)],
      vars := [("g", .vint 1), ("y", .vnone), ("r", .vint 2), ("h", .vnone)],
      toExec := [15, 10, 9, 8, 7, 5, 20, 22, 21, 19, 0],
      jump := none, output := [], diags := [], halted := false, crashed := false,
      succ := [] }
  | 13 =>
    { scopeMap := [([0], []), ([0, 8], ["r"])],
      cache := [(4, .vint 1), (3, .vint 1), (14, .vint 2), (13, .vint 2), (18, .vint 7), (17, .vint 7)],
      vars := [("g", .vint 1), ("y", .vnone), ("r", .vint 2), ("h", .vint 7)],
      toExec := [10, 9, 8, 7, 5, 20, 22, 21, 19, 0],
      jump := none, output := [], diags := [], halted := false, crashed := false,
      succ := [] }
  | 14 =>
    { scopeMap := [([0], []), ([0, 8], ["r"])],
      cache := [(4, .vint 1), (3, .vint 1), (14, .vint 2), (13, .vint 2), (18, .vint 7), (17, .vint 7)],
      vars := [("g", .vint 1), ("y", .vnone), ("r", .vint 2), ("h", .vint 7)],
      toExec := [9, 8, 7, 5, 20, 22, 21, 19, 0],
      jump := none, output := [], diags := [], halted := false, crashed := false,
      succ := [] }
  | 15 =>
    { scopeMap := [([0], []), ([0, 8], ["r"])],
      cache := [(4, .vint 1), (3, .vint 1), (14, .vint 2), (13, .vint 2), (18, .vint 7), (17, .vint 7), (9, .vint 2)],
      vars := [("g", .vint 1), ("y", .vnone), ("r", .vint 2), ("h", .vint 7)],
      toExec := [8, 7, 5, 20, 22, 21, 19, 0],
      jump := none, output := [], diags := [], halted := false, crashed := false,
      succ := [] }
  | 16 =>
    { scopeMap := [([0], [])],
      cache := [(4, .vint 1), (3, .vint 1), (14, .vint 2), (13, .vint 2), (18, .vint 7), (17, .vint 7), (9, .vint 2), (8, .vint 2)],
      vars := [("g", .vint 1), ("y", .vnone), ("h", .vint 7)],
      toExec := [7, 5, 20, 22, 21, 19, 0],
      jump := none, output := [], diags := [], halted := false, crashed := false,
      succ := [] }
  | 17 =>
    { scopeMap := [([0], [])],
      cache := [(4, .vint 1), (3, .vint 1), (14, .vint 2), (13, .vint 2), (18, .vint 7), (17, .vint 7), (9, .vint 2), (8, .vint 2), (7, .vint 2)],
      vars := [("g", .vint 1), ("y", .vnone), ("h", .vint 7)],
      toExec := [5, 20, 22, 21, 19, 0],
      jump := none, output := [], diags := [], halted := false, crashed := false,
      succ := [] }
  | 18 =>
    { scopeMap := [([0], [])],
      cache := [(4, .vint 1), (3, .vint 1), (14, .vint 2), (13, .vint 2), (18, .vint 7), (17, .vint 7), (9, .vint 2), (8, .vint 2), (7, .vint 2)],
      vars := [("g", .vint 1), ("y", .vint 2), ("h", .vint 7)],
      toExec := [20, 22, 21, 19, 0],
      jump := none, output := [], diags := [], halted := false, crashed := false,
      succ := [] }
  | 19 =>
    { scopeMap := [([0], [])],
      cache := [(4, .vint 1), (3, .vint 1), (14, .vint 2), (13, .vint 2), (18, .vint 7), (17, .vint 7), (9, .vint 2), (8, .vint 2), (7, .vint 2)],
      vars := [("g", .vint 1), ("y", .vint 2), ("h", .vint 7)],
      toExec := [22, 21, 19, 0],
      jump := none, output := [], diags := [], halted := false, crashed := false,
      succ := [] }
  | 20 =>
    { scopeMap := [([0], [])],
      cache := [(4, .vint 1), (3, .vint 1), (14, .vint 2), (13, .vint 2), (18, .vint 7), (17, .vint 7), (9, .vint 2), (8, .vint 2), (7, .vint 2), (22, .vint 2)],
      vars := [("g", .vint 1), ("y", .vint 2), ("h", .vint 7)],
      toExec := [21, 19, 0],
      jump := none, output := [], diags := [], halted := false, crashed := false,
      succ := [] }
  | 21 =>
    { scopeMap := [([0], [])],
      cache := [(4, .vint 1), (3, .vint 1), (14, .vint 2), (13, .vint 2), (18, .vint 7), (17, .vint 7), (9, .vint 2), (8, .vint 2), (7, .vint 2), (22, .vint 2), (21, .vint 2)],
      vars := [("g", .vint 1), ("y", .vint 2), ("h", .vint 7)],
      toExec := [19, 0],
      jump := none, output := [], diags := [], halted := false, crashed := false,
      succ := [] }
  | 22 =>
    { scopeMap := [([0], [])],
      cache := [(4, .vint 1), (3, .vint 1), (14, .vint 2), (13, .vint 2), (18, .vint 7), (17, .vint 7), (9, .vint 2), (8, .vint 2), (7, .vint 2), (22, .vint 2), (21, .vint 2)],
      vars := [("g", .vint 1), ("y", .vint 2), ("h", .vint 7)],
      toExec := [0],
      jump := none, output := [.vint 2], diags := [], halted := false, crashed := false,
      succ := [] }
  | _ =>
    { scopeMap := [([0], [])],
      cache := [(4, .vint 1), (3, .vint 1), (14, .vint 2), (13, .vint 2), (18, .vint 7), (17, .vint 7), (9, .vint 2), (8, .vint 2), (7, .vint 2), (22, .vint 2), (21, .vint 2)],
      vars := [("g", .vint 1), ("y", .vint 2), ("h", .vint 7)],
      toExec := [],
      jump := none, output := [.vint 2], diags := [], halted := false, crashed := false,
      succ := [] }

/-! ## C8: cycle value length = successful predicate checks -/

/-- The program `n: 0` / `r: [n : 5]` / `!: r` (predicate fails at once). -/
def p8 : List (List Char) := ["n: 0\n".toList, "r: [n : 5]\n".toList, "!: r\n".toList]

def a8 : List PNode :=
  [⟨0, 0, -1, .seq, .vnone, [0], [1, 5, 14]⟩,
   ⟨0, 1, 0, .assign, .vnone, [0], [2, 3]⟩,
   ⟨0, 2, 1, .lvalue, .vtok ⟨.gname, .vstr "n", 0⟩, [0], []⟩,
   ⟨0, 3, 1, .expr, .vnone, [0], [4]⟩,
   ⟨0, 4, 3, .value, .vtok ⟨.number, .vnum 0, 0⟩, [0], []⟩,
   ⟨1, 5, 0, .assign, .vnone, [0], [6, 7]⟩,
   ⟨1, 6, 5, .lvalue, .vtok ⟨.gname, .vstr "r", 1⟩, [0], []⟩,
   ⟨1, 7, 5, .expr, .vnone, [0], [8]⟩,
   ⟨1, 8, 7, .cycle, .vnone, [0], [9, 12]⟩,
   ⟨1, 9, 8, .predicate, .vpred .leZero 8 none, [0], [10]⟩,
   ⟨1, 10, 9, .expr, .vnone, [0], [11]⟩,
   ⟨1, 11, 10, .value, .vtok ⟨.gname, .vstr "n", 1⟩, [0], []⟩,
   ⟨1, 12, 8, .expr, .vnone, [0], [13]⟩,
   ⟨1, 13, 12, .value, .vtok ⟨.number, .vnum 5, 1⟩, [0], []⟩,
   ⟨2, 14, 0, .assign, .vnone, [0], [15, 16]⟩,
   ⟨2, 15, 14, .lvalue, .vtok ⟨.gname, .vstr "!", 2⟩, [0], []⟩,
   ⟨2, 16, 14, .expr, .vnone, [0], [17]⟩,
   ⟨2, 17, 16, .value, .vtok ⟨.gname, .vstr "r", 2⟩, [0], []⟩]

def c8pre : Nat → ExecState
  | 0 =>
    { scopeMap := [([0], [])],
      cache := [],
      vars := [],
      toExec := [2, 4, 3, 1, 6, 11, 10, 9, 13, 12, 8, 7, 5, 15, 17, 16, 14, 0],
      jump := none, output := [], diags := [], halted := false, crashed := false,
      succ := [] }
  | 1 =>
    { scopeMap := [([0], [])],
      cache := [],
      vars := [("n", .vnone)],
      toExec := [4, 3, 1, 6, 11, 10, 9, 13, 12, 8, 7, 5, 15, 17, 16, 14, 0],
      jump := none, output := [], diags := [], halted := false, crashed := false,
      succ := [] }
  | 2 =>
    { scopeMap := [([0], [])],
      cache := [(4, .vint 0)],
      vars := [("n", .vnone)],
      toExec := [3, 1, 6, 11, 10, 9, 13, 12, 8, 7, 5, 15, 17, 16, 14, 0],
      jump := none, output := [], diags := [], halted := false, crashed := false,
      succ := [] }
  | 3 =>
    { scopeMap := [([0], [])],
      cache := [(4, .vint 0), (3, .vint 0)],
      vars := [("n", .vnone)],
      toExec := [1, 6, 11, 10, 9, 13, 12, 8, 7, 5, 15, 17, 16, 14, 0],
      jump := none, output := [], diags := [], halted := false, crashed := false,
      succ := [] }
  | 4 =>
    { scopeMap := [([0], [])],
      cache := [(4, .vint 0), (3, .vint 0)],
      vars := [("n", .vint 0)],
      toExec := [6, 11, 10, 9, 13, 12, 8, 7, 5, 15, 17, 16, 14, 0],
      jump := none, output := [], diags := [], halted := false, crashed := false,
      succ := [] }
  | 5 =>
    { scopeMap := [([0], [])],
      cache := [(4, .vint 0), (3, .vint 0)],
      vars := [("n", .vint 0), ("r", .vnone)],
      toExec := [11, 10, 9, 13, 12, 8, 7, 5, 15, 17, 16, 14, 0],
      jump := none, output := [], diags := [], halted := false, crashed := false,
      succ := [] }
  | 6 =>
    { scopeMap := [([0], [])],
      cache := [(4, .vint 0), (3, .vint 0), (11, .vint 0)],
      vars := [("n", .vint 0), ("r", .vnone)],
      toExec := [10, 9, 13, 12, 8, 7, 5, 15, 17, 16, 14, 0],
      jump := none, output := [], diags := [], halted := false, crashed := false,
      succ := [] }
  | 7 =>
    { scopeMap := [([0], [])],
      cache := [(4, .vint 0), (3, .vint 0), (11, .vint 0), (10, .vint 0)],
      vars := [("n", .vint 0), ("r", .vnone)],
      toExec := [9, 13, 12, 8, 7, 5, 15, 17, 16, 14, 0],
      jump := none, output := [], diags := [], halted := false, crashed := false,
      succ := [] }
  | 8 =>
    { scopeMap := [([0], [])],
      cache := [(4, .vint 0), (3, .vint 0), (11, .vint 0), (10, .vint 0), (9, .vbool true)],
      vars := [("n", .vint 0), ("r", .vnone)],
      toExec := [13, 12, 8, 7, 5, 15, 17, 16, 14, 0],
      jump := some 8, output := [], diags := [], halted := false, crashed := false,
      succ := [] }
  | 9 =>
    { scopeMap := [([0], [])],
      cache := [(4, .vint 0), (3, .vint 0), (11, .vint 0), (10, .vint 0), (9, .vbool true)],
      vars := [("n", .vint 0), ("r", .vnone)],
      toExec := [12, 8, 7, 5, 15, 17, 16, 14, 0],
      jump := some 8, output := [], diags := [], halted := false, crashed := false,
      succ := [] }
  | 10 =>
    { scopeMap := [([0], [])],
      cache := [(4, .vint 0), (3, .vint 0), (11, .vint 0), (10, .vint 0), (9, .vbool true)],
      vars := [("n", .vint 0), ("r", .vnone)],
      toExec := [8, 7, 5, 15, 17, 16, 14, 0],
      jump := some 8, output := [], diags := [], halted := false, crashed := false,
      succ := [] }
  | 11 =>
    { scopeMap := [([0], [])],
      cache := [(4, .vint 0), (3, .vint 0), (11, .vint 0), (10, .vint 0), (9, .vbool true), (8, .vlist [])],
      vars := [("n", .vint 0), ("r", .vnone)],
      toExec := [7, 5, 15, 17, 16, 14, 0],
      jump := none, output := [], diags := [], halted := false, crashed := false,
      succ := [] }
  | 12 =>
    { scopeMap := [([0], [])],
      cache := [(4, .vint 0), (3, .vint 0), (11, .vint 0), (10, .vint 0), (9, .vbool true), (8, .vlist []), (7, .vlist [])],
      vars := [("n", .vint 0), ("r", .vnone)],
      toExec := [5, 15, 17, 16, 14, 0],
      jump := none, output := [], diags := [], halted := false, crashed := false,
      succ := [] }
  | 13 =>
    { scopeMap := [([0], [])],
      cache := [(4, .vint 0), (3, .vint 0), (11, .vint 0), (10, .vint 0), (9, .vbool true), (8, .vlist []), (7, .vlist [])],
      vars := [("n", .vint 0), ("r", .vlist [])],
      toExec := [15, 17, 16, 14, 0],
      jump := none, output := [], diags := [], halted := false, crashed := false,
      succ := [] }
  | 14 =>
    { scopeMap := [([0], [])],
      cache := [(4, .vint 0), (3, .vint 0), (11, .vint 0), (10, .vint 0), (9, .vbool true), (8, .vlist []), (7, .vlist [])],
      vars := [("n", .vint 0), ("r", .vlist [])],
      toExec := [17, 16, 14, 0],
      jump := none, output := [], diags := [], halted := false, crashed := false,
      succ := [] }
  | 15 =>
    { scopeMap := [([0], [])],
      cache := [(4, .vint 0), (3, .vint 0), (11, .vint 0), (10, .vint 0), (9, .vbool true), (8, .vlist []), (7, .vlist []), (17, .vlist [])],
      vars := [("n", .vint 0), ("r", .vlist [])],
      toExec := [16, 14, 0],
      jump := none, output := [], diags := [], halted := false, crashed := false,
      succ := [] }
  | 16 =>
    { scopeMap := [([0], [])],
      cache := [(4, .vint 0), (3, .vint 0), (11, .vint 0), (10, .vint 0), (9, .vbool true), (8, .vlist []), (7, .vlist []), (17, .vlist []), (16, .vlist [])],
      vars := [("n", .vint 0), ("r", .vlist [])],
      toExec := [14, 0],
      jump := none, output := [], diags := [], halted := false, crashed := false,
      succ := [] }
  | 17 =>
    { scopeMap := [([0], [])],
      cache := [(4, .vint 0), (3, .vint 0), (11, .vint 0), (10, .vint 0), (9, .vbool true), (8, .vlist []), (7, .vlist []), (17, .vlist []), (16, .vlist [])],
      vars := [("n", .vint 0), ("r", .vlist [])],
      toExec := [0],
      jump := none, output := [.vlist []], diags := [], halted := false, crashed := false,
      succ := [] }
  | _ =>
    { scopeMap := [([0], [])],
      cache := [(4, .vint 0), (3, .vint 0), (11, .vint 0), (10, .vint 0), (9, .vbool true), (8, .vlist []), (7, .vlist []), (17, .vlist []), (16, .vlist [])],
      vars := [("n", .vint 0), ("r", .vlist [])],
      toExec := [],
      jump := none, output := [.vlist []], diags := [], halted := false, crashed := false,
      succ := [] }

/-- The instrumentation invariant: for every `CYCLE` node of the arena,
the ghost count of successful predicate checks is the length of the
cached sequence (0 while no sequence is cached), and a cycle's cache is
never anything but a sequence. -/
def CycleInv (a : List PNode) (es : ExecState) : Prop :=
  ∀ i, (nodeAt a i).nt = .cycle →
    match alookup es.cache i with
    | none => (alookup es.succ i).getD 0 = 0
    | some (.vlist l) => (alookup es.succ i).getD 0 = l.length
    | some _ => False

/-! ## C9: a fresh assignment target is initialized before its right-hand
side runs (`x: x` self-reference) -/

def p9 : List (List Char) := ["x: x\n".toList]

def a9 : List PNode :=
  [⟨0, 0, -1, .seq, .vnone, [0], [1]⟩,
   ⟨0, 1, 0, .assign, .vnone, [0], [2, 3]⟩,
   ⟨0, 2, 1, .lvalue, .vtok ⟨.gname, .vstr "x", 0⟩, [0], []⟩,
   ⟨0, 3, 1, .expr, .vnone, [0], [4]⟩,
   ⟨0, 4, 3, .value, .vtok ⟨.gname, .vstr "x", 0⟩, [0], []⟩]

def c9pre : Nat → ExecState
  | 0 =>
    { scopeMap := [([0], [])],
      cache := [],
      vars := [],
      toExec := [2, 4, 3, 1, 0],
      jump := none, output := [], diags := [], halted := false, crashed := false,
      succ := [] }
  | 1 =>
    { scopeMap := [([0], [])],
      cache := [],
      vars := [("x", .vnone)],
      toExec := [4, 3, 1, 0],
      jump := none, output := [], diags := [], halted := false, crashed := false,
      succ := [] }
  | 2 =>
    { scopeMap := [([0], [])],
      cache := [(4, .vnone)],
      vars := [("x", .vnone)],
      toExec := [3, 1, 0],
      jump := none, output := [], diags := [], halted := false, crashed := false,
      succ := [] }
  | 3 =>
    { scopeMap := [([0], [])],
      cache := [(4, .vnone), (3, .vnone)],
      vars := [("x", .vnone)],
      toExec := [1, 0],
      jump := none, output := [], diags := [], halted := false, crashed := false,
      succ := [] }
  | 4 =>
    { scopeMap := [([0], [])],
      cache := [(4, .vnone), (3, .vnone)],
      vars := [("x", .vnone)],
      toExec := [0],
      jump := none, output := [], diags := [], halted := false, crashed := false,
      succ := [] }
  | _ =>
    { scopeMap := [([0], [])],
      cache := [(4, .vnone), (3, .vnone)],
      vars := [("x", .vnone)],
      toExec := [],
      jump := none, output := [], diags := [], halted := false, crashed := false,
      succ := [] }

/-- The local-name variant of the self-reference program: `'x': 'x'`
(both the target and the reference are locals, apostrophes stripped by
the lexer). -/
def p9l : List (List Char) := ["'x': 'x'\n".toList]

def a9l : List PNode :=
  [⟨0, 0, -1, .seq, .vnone, [0], [1]⟩,
   ⟨0, 1, 0, .assign, .vnone, [0], [2, 3]⟩,
   ⟨0, 2, 1, .lvalue, .vtok ⟨.lname, .vstr "x", 0⟩, [0], []⟩,
   ⟨0, 3, 1, .expr, .vnone, [0], [4]⟩,
   ⟨0, 4, 3, .value, .vtok ⟨.lname, .vstr "x", 0⟩, [0], []⟩]

def c9lpre : Nat → ExecState
  | 0 =>
    { scopeMap := [([0], [])],
      cache := [],
      vars := [],
      toExec := [2, 4, 3, 1, 0],
      jump := none, output := [], diags := [], halted := false, crashed := false,
      succ := [] }
  | 1 =>
    { scopeMap := [([0], ["x"])],
      cache := [],
      vars := [("x", .vnone)],
      toExec := [4, 3, 1, 0],
      jump := none, output := [], diags := [], halted := false, crashed := false,
      succ := [] }
  | 2 =>
    { scopeMap := [([0], ["x"])],
      cache := [(4, .vnone)],
      vars := [("x", .vnone)],
      toExec := [3, 1, 0],
      jump := none, output := [], diags := [], halted := false, crashed := false,
      succ := [] }
  | 3 =>
    { scopeMap := [([0], ["x"])],
      cache := [(4, .vnone), (3, .vnone)],
      vars := [("x", .vnone)],
      toExec := [1, 0],
      jump := none, output := [], diags := [], halted := false, crashed := false,
      succ := [] }
  | 4 =>
    { scopeMap := [([0], ["x"])],
      cache := [(4, .vnone), (3, .vnone)],
      vars := [("x", .vnone)],
      toExec := [0],
      jump := none, output := [], diags := [], halted := false, crashed := false,
      succ := [] }
  | _ =>
    { scopeMap := [([0], ["x"])],
      cache := [(4, .vnone), (3, .vnone)],
      vars := [("x", .vnone)],
      toExec := [],
      jump := none, output := [], diags := [], halted := false, crashed := false,
      succ := [] }

/-! ## C10: a local `LVALUE` whose stripped name already exists overwrites
the existing binding for good (token program `n: 1` / `y: (@ r` /
`n': 5` / `r': 2` / `)` / `!: n`) -/

def t10 : List (List Token) :=
  [[mkG "n" 0, mkT .colon 0, mkN 1 0],
   [mkG "y" 1, mkT .colon 1, mkT .lparen 1, mkT .atT 1, mkG "r" 1],
   [mkL "n" 2, mkT .colon 2, mkN 5 2],
   [mkL "r" 3, mkT .colon 3, mkN 2 3],
   [mkT .rparen 4],
   [mkG "!" 5, mkT .colon 5, mkG "n" 5]]

def a10 : List PNode :=
  [⟨0, 0, -1, .seq, .vnone, [0], [1, 5, 19]⟩,
   ⟨0, 1, 0, .assign, .vnone, [0], [2, 3]⟩,
   ⟨0, 2, 1, .lvalue, .vtok ⟨.gname, .vstr "n", 0⟩, [0], []⟩,
   ⟨0, 3, 1, .expr, .vnone, [0], [4]⟩,
   ⟨0, 4, 3, .value, .vtok ⟨.number, .vnum 1, 0⟩, [0], []⟩,
   ⟨1, 5, 0, .assign, .vnone, [0], [6, 7]⟩,
   ⟨1, 6, 5, .lvalue, .vtok ⟨.gname, .vstr "y", 1⟩, [0], []⟩,
   ⟨1, 7, 5, .expr, .vnone, [0], [8]⟩,
   ⟨1, 8, 7, .scope, .vnone, [0, 8], [9]⟩,
   ⟨1, 9, 8, .ret, .vtok ⟨.gname, .vstr "r", 1⟩, [0, 8], [10]⟩,
   ⟨1, 10, 9, .seq, .vnone, [0, 8], [11, 15]⟩,
   ⟨2, 11, 10, .assign, .vnone, [0, 8], [12, 13]⟩,
   ⟨2, 12, 11, .lvalue, .vtok ⟨.lname, .vstr "n", 2⟩, [0, 8], []⟩,
   ⟨2, 13, 11, .expr, .vnone, [0, 8], [14]⟩,
   ⟨2, 14, 13, .value, .vtok ⟨.number, .vnum 5, 2⟩, [0, 8], []⟩,
   ⟨3, 15, 10, .assign, .vnone, [0, 8], [16, 17]⟩,
   ⟨3, 16, 15, .lvalue, .vtok ⟨.lname, .vstr "r", 3⟩, [0, 8], []⟩,
   ⟨3, 17, 15, .expr, .vnone, [0, 8], [18]⟩,
   ⟨3, 18, 17, .value, .vtok ⟨.number, .vnum 2, 3⟩, [0, 8], []⟩,
   ⟨5, 19, 0, .assign, .vnone, [0], [20, 21]⟩,
   ⟨5, 20, 19, .lvalue, .vtok ⟨.gname, .vstr "!", 5⟩, [0], []⟩,
   ⟨5, 21, 19, .expr, .vnone, [0], [22]⟩,
   ⟨5, 22, 21, .value, .vtok ⟨.gname, .vstr "n", 5⟩, [0], []⟩]

def c10pre : Nat → ExecState
  | 0 =>
    { scopeMap := [([0], [])],
      cache := [],
      vars := [],
      toExec := [2, 4, 3, 1, 6, 12, 14, 13, 11, 16, 18, 17, 15, 10, 9, 8, 7, 5, 20, 22, 21, 19, 0],
      jump := none, output := [], diags := [], halted := false, crashed := false,
      succ := [] }
  | 1 =>
    { scopeMap := [([0], [])],
      cache := [],
      vars := [("n", .vnone)],
      toExec := [4, 3, 1, 6, 12, 14, 13, 11, 16, 18, 17, 15, 10, 9, 8, 7, 5, 20, 22, 21, 19, 0],
      jump := none, output := [], diags := [], halted := false, crashed := false,
      succ := [] }
  | 2 =>
    { scopeMap := [([0], [])],
      cache := [(4, .vint 1)],
      vars := [("n", .vnone)],
      toExec := [3, 1, 6, 12, 14, 13, 11, 16, 18, 17, 15, 10, 9, 8, 7, 5, 20, 22, 21, 19, 0],
      jump := none, output := [], diags := [], halted := false, crashed := false,
      succ := [] }
  | 3 =>
    { scopeMap := [([0], [])],
      cache := [(4, .vint 1), (3, .vint 1)],
      vars := [("n", .vnone)],
      toExec := [1, 6, 12, 14, 13, 11, 16, 18, 17, 15, 10, 9, 8, 7, 5, 20, 22, 21, 19, 0],
      jump := none, output := [], diags := [], halted := false, crashed := false,
      succ := [] }
  | 4 =>
    { scopeMap := [([0], [])],
      cache := [(4, .vint 1), (3, .vint 1)],
      vars := [("n", .vint 1)],
      toExec := [6, 12, 14, 13, 11, 16, 18, 17, 15, 10, 9, 8, 7, 5, 20, 22, 21, 19, 0],
      jump := none, output := [], diags := [], halted := false, crashed := false,
      succ := [] }
  | 5 =>
    { scopeMap := [([0], [])],
      cache := [(4, .vint 1), (3, .vint 1)],
      vars := [("n", .vint 1), ("y", .vnone)],
      toExec := [12, 14, 13, 11, 16, 18, 17, 15, 10, 9, 8, 7, 5, 20, 22, 21, 19, 0],
      jump := none, output := [], diags := [], halted := false, crashed := false,
      succ := [] }
  | 6 =>
    { scopeMap := [([0], [])],
      cache := [(4, .vint 1), (3, .vint 1)],
      vars := [("n", .vint 1), ("y", .vnone)],
      toExec := [14, 13, 11, 16, 18, 17, 15, 10, 9, 8, 7, 5, 20, 22, 21, 19, 0],
      jump := none, output := [], diags := [], halted := false, crashed := false,
      succ := [] }
  | 7 =>
    { scopeMap := [([0], [])],
      cache := [(4, .vint 1), (3, .vint 1), (14, .vint 5)],
      vars := [("n", .vint 1), ("y", .vnone)],
      toExec := [13, 11, 16, 18, 17, 15, 10, 9, 8, 7, 5, 20, 22, 21, 19, 0],
      jump := none, output := [], diags := [], halted := false, crashed := false,
      succ := [] }
  | 8 =>
    { scopeMap := [([0], [])],
      cache := [(4, .vint 1), (3, .vint 1), (14, .vint 5), (13, .vint 5)],
      vars := [("n", .vint 1), ("y", .vnone)],
      toExec := [11, 16, 18, 17, 15, 10, 9, 8, 7, 5, 20, 22, 21, 19, 0],
      jump := none, output := [], diags := [], halted := false, crashed := false,
      succ := [] }
  | 9 =>
    { scopeMap := [([0], [])],
      cache := [(4, .vint 1), (3, .vint 1), (14, .vint 5), (13, .vint 5)],
      vars := [("n", .vint 5), ("y", .vnone)],
      toExec := [16, 18, 17, 15, 10, 9, 8, 7, 5, 20, 22, 21, 19, 0],
      jump := none, output := [], diags := [], halted := false, crashed := false,
      succ := [] }
  | 10 =>
    { scopeMap := [([0], []), ([0, 8], ["r"])],
      cache := [(4, .vint 1), (3, .vint 1), (14, .vint 5), (13, .vint 5)],
      vars := [("n", .vint 5), ("y", .vnone), ("r", .vnone)],
      toExec := [18, 17, 15, 10, 9, 8, 7, 5, 20, 22, 21, 19, 0],
      jump := none, output := [], diags := [], halted := false, crashed := false,
      succ := [] }
  | 11 =>
    { scopeMap := [([0], []), ([0, 8], ["r"])],
      cache := [(4, .vint 1), (3, .vint 1), (14, .vint 5), (13, .vint 5), (18, .vint 2)],
      vars := [("n", .vint 5), ("y", .vnone), ("r", .vnone)],
      toExec := [17, 15, 10, 9, 8, 7, 5, 20, 22, 21, 19, 0],
      jump := none, output := [], diags := [], halted := false, crashed := false,
      succ := [] }
  | 12 =>
    { scopeMap := [([0], []), ([0, 8], ["r"])],
      cache := [(4, .vint 1), (3, .vint 1), (14, .vint 5), (13, .vint 5), (18, .vint 2), (17, .vint 2)],
      vars := [("n", .vint 5), ("y", .vnone), ("r", .vnone)],
      toExec := [15, 10, 9, 8, 7, 5, 20, 22, 21, 19, 0],
      jump := none, output := [], diags := [], halted := false, crashed := false,
      succ := [] }
  | 13 =>
    { scopeMap := [([0], []), ([0, 8], ["r"])],
      cache := [(4, .vint 1), (3, .vint 1), (14, .vint 5), (13, .vint 5), (18, .vint 2), (17, .vint 2)],
      vars := [("n", .vint 5), ("y", .vnone), ("r", .vint 2)],
      toExec := [10, 9, 8, 7, 5, 20, 22, 21, 19, 0],
      jump := none, output := [], diags := [], halted := false, crashed := false,
      succ := [] }
  | 14 =>
    { scopeMap := [([0], []), ([0, 8], ["r"])],
      cache := [(4, .vint 1), (3, .vint 1), (14, .vint 5), (13, .vint 5), (18, .vint 2), (17, .vint 2)],
      vars := [("n", .vint 5), ("y", .vnone), ("r", .vint 2)],
      toExec := [9, 8, 7, 5, 20, 22, 21, 19, 0],
      jump := none, output := [], diags := [], halted := false, crashed := false,
      succ := [] }
  | 15 =>
    { scopeMap := [([0], []), ([0, 8], ["r"])],
      cache := [(4, .vint 1), (3, .vint 1), (14, .vint 5), (13, .vint 5), (18, .vint 2), (17, .vint 2), (9, .vint 2)],
      vars := [("n", .vint 5), ("y", .vnone), ("r", .vint 2)],
      toExec := [8, 7, 5, 20, 22, 21, 19, 0],
      jump := none, output := [], diags := [], halted := false, crashed := false,
      succ := [] }
  | 16 =>
    { scopeMap := [([0], [])],
      cache := [(4, .vint 1), (3, .vint 1), (14, .vint 5), (13, .vint 5), (18, .vint 2), (17, .vint 2), (9, .vint 2), (8, .vint 2)],
      vars := [("n", .vint 5), ("y", .vnone)],
      toExec := [7, 5, 20, 22, 21, 19, 0],
      jump := none, output := [], diags := [], halted := false, crashed := false,
      succ := [] }
  | 17 =>
    { scopeMap := [([0], [])],
      cache := [(4, .vint 1), (3, .vint 1), (14, .vint 5), (13, .vint 5), (18, .vint 2), (17, .vint 2), (9, .vint 2), (8, .vint 2), (7, .vint 2)],
      vars := [("n", .vint 5), ("y", .vnone)],
      toExec := [5, 20, 22, 21, 19, 0],
      jump := none, output := [], diags := [], halted := false, crashed := false,
      succ := [] }
  | 18 =>
    { scopeMap := [([0], [])],
      cache := [(4, .vint 1), (3, .vint 1), (14, .vint 5), (13, .vint 5), (18, .vint 2), (17, .vint 2), (9, .vint 2), (8, .vint 2), (7, .vint 2)],
      vars := [("n", .vint 5), ("y", .vint 2)],
      toExec := [20, 22, 21, 19, 0],
      jump := none, output := [], diags := [], halted := false, crashed := false,
      succ := [] }
  | 19 =>
    { scopeMap := [([0], [])],
      cache := [(4, .vint 1), (3, .vint 1), (14, .vint 5), (13, .vint 5), (18, .vint 2), (17, .vint 2), (9, .vint 2), (8, .vint 2), (7, .vint 2)],
      vars := [("n", .vint 5), ("y", .vint 2)],
      toExec := [22, 21, 19, 0],
      jump := none, output := [], diags := [], halted := false, crashed := false,
      succ := [] }
  | 20 =>
    { scopeMap := [([0], [])],
      cache := [(4, .vint 1), (3, .vint 1), (14, .vint 5), (13, .vint 5), (18, .vint 2), (17, .vint 2), (9, .vint 2), (8, .vint 2), (7, .vint 2), (22, .vint 5)],
      vars := [("n", .vint 5), ("y", .vint 2)],
      toExec := [21, 19, 0],
      jump := none, output := [], diags := [], halted := false, crashed := false,
      succ := [] }
  | 21 =>
    { scopeMap := [([0], [])],
      cache := [(4, .vint 1), (3, .vint 1), (14, .vint 5), (13, .vint 5), (18, .vint 2), (17, .vint 2), (9, .vint 2), (8, .vint 2), (7, .vint 2), (22, .vint 5), (21, .vint 5)],
      vars := [("n", .vint 5), ("y", .vint 2)],
      toExec := [19, 0],
      jump := none, output := [], diags := [], halted := false, crashed := false,
      succ := [] }
  | 22 =>
    { scopeMap := [([0], [])],
      cache := [(4, .vint 1), (3, .vint 1), (14, .vint 5), (13, .vint 5), (18, .vint 2), (17, .vint 2), (9, .vint 2), (8, .vint 2), (7, .vint 2), (22, .vint 5), (21, .vint 5)],
      vars := [("n", .vint 5), ("y", .vint 2)],
      toExec := [0],
      jump := none, output := [.vint 5], diags := [], halted := false, crashed := false,
      succ := [] }
  | _ =>
    { scopeMap := [([0], [])],
      cache := [(4, .vint 1), (3, .vint 1), (14, .vint 5), (13, .vint 5), (18, .vint 2), (17, .vint 2), (9, .vint 2), (8, .vint 2), (7, .vint 2), (22, .vint 5), (21, .vint 5)],
      vars := [("n", .vint 5), ("y", .vint 2)],
      toExec := [],
      jump := none, output := [.vint 5], diags := [], halted := false, crashed := false,
      succ := [] }

theorem alookup_aupdate_self {α β : Type} [DecidableEq α]
    (l : List (α × β)) (k : α) (v : β) : alookup (aupdate l k v) k = some v := by
  induction l with
  | nil => simp [aupdate, alookup]
  | cons hd t ih =>
    obtain ⟨a, b⟩ := hd
    by_cases h : a = k <;> simp [aupdate, alookup, h, ih]

theorem alookup_aupdate_ne {α β : Type} [DecidableEq α]
    (l : List (α × β)) (k k' : α) (v : β) (h : k ≠ k') :
    alookup (aupdate l k v) k' = alookup l k' := by
  induction l with
  | nil => simp [aupdate, alookup, h]
  | cons hd t ih =>
    obtain ⟨a, b⟩ := hd
    by_cases ha : a = k
    · subst ha
      simp [aupdate, alookup, if_neg h, if_neg (fun hk => h hk)]
    · simp [aupdate, alookup, ha, ih]

theorem alookup_aremove_self {α β : Type} [DecidableEq α]
    (l : List (α × β)) (k : α) :
    alookup (aremove l k) k = none := by
  induction l with
  | nil => simp [aremove, alookup]
  | cons hd t ih =>
    obtain ⟨a, b⟩ := hd
    by_cases h : a = k
    · simp [aremove, h, ih]
    · simp [aremove, h, alookup, ih]

theorem alookup_aremove_ne {α β : Type} [DecidableEq α]
    (l : List (α × β)) (k k' : α) (h : k ≠ k') :
    alookup (aremove l k) k' = alookup l k' := by
  induction l with
  | nil => simp [aremove, alookup]
  | cons hd t ih =>
    obtain ⟨a, b⟩ := hd
    by_cases ha : a = k
    · subst ha
      simp [aremove, alookup, if_neg h, ih]
    · simp [aremove, ha, alookup, ih]

/-! ## Generic facts about the fuelled run -/

theorem stepN_comm (a : List PNode) (n : Nat) (es : ExecState) :
    stepN a n (execStep a es) = execStep a (stepN a n es) := by
  induction n with
  | zero => rfl
  | succ n ih => simp [stepN, ih]

theorem stepN_add (a : List PNode) (m n : Nat) (es : ExecState) :
    stepN a (m + n) (es) = stepN a n (stepN a m es) := by
  induction n with
  | zero => rfl
  | succ n ih => simp [stepN, ← Nat.add_assoc, ih]

/-- The run exhausts any fuel exactly when no prefix of the step sequence
is done. -/
theorem runE_none_iff (a : List PNode) (f : Nat) (es : ExecState) :
    runE a f es = none ↔ ∀ j ≤ f, execDone (stepN a j es) = false := by
  induction f generalizing es with
  | zero =>
    constructor
    · intro h j hj
      have hj0 : j = 0 := by omega
      subst hj0
      simp only [stepN]
      by_cases hd : execDone es
      · simp [runE, hd] at h
      · simp only [Bool.not_eq_true] at hd
        exact hd
    · intro h
      have h0 := h 0 (Nat.le_refl 0)
      simp only [stepN] at h0
      simp [runE, h0]
  | succ f ih =>
    constructor
    · intro h j hj
      simp only [runE] at h
      by_cases hd : execDone es
      · simp [hd] at h
      · simp only [hd, if_false] at h
        rcases j with _ | j
        · simpa [stepN] using hd
        · have := (ih (execStep a es)).1 h j (by omega)
          simpa [stepN_comm] using this
    · intro h
      have hd : execDone es = false := by simpa [stepN] using h 0 (by omega)
      simp only [runE, hd, Bool.false_eq_true, if_false]
      refine (ih (execStep a es)).2 ?_
      intro j hj
      have := h (j + 1) (by omega)
      simpa [stepN, stepN_comm] using this

/-- If a family of states cycles under `N` steps and no state within a
period is done, no state of the orbit is ever done. -/
theorem periodic_not_done {α : Type} (a : List PNode) (s : α → ExecState) (g : α → α)
    (N : Nat) (hN : 0 < N)
    (hcyc : ∀ x, stepN a N (s x) = s (g x))
    (hnd : ∀ x j, j < N → execDone (stepN a j (s x)) = false) :
    ∀ j x, execDone (stepN a j (s x)) = false := by
  intro j
  induction j using Nat.strong_induction_on with
  | _ j ih =>
    intro x
    by_cases h : j < N
    · exact hnd x j h
    · have hj : j = N + (j - N) := by omega
      rw [hj, stepN_add, hcyc]
      exact ih (j - N) (by omega) (g x)

theorem a1_parse : (feedAll p1).prog.nodes = a1 ∧ (feedAll p1).halted = false := by
  constructor <;> rfl

theorem stepN_succ (a : List PNode) (n : Nat) (es : ExecState) :
    stepN a (n + 1) es = execStep a (stepN a n es) := rfl

theorem c1pre_step : ∀ j, j < 13 → execStep a1 (c1pre j) = c1pre (j + 1) := by
  intro j hj
  interval_cases j <;> rfl

theorem c1pre_stepN : ∀ j, j ≤ 13 → stepN a1 j (initExec a1) = c1pre j := by
  intro j hj
  induction j with
  | zero => rfl
  | succ j ih =>
    rw [stepN_succ, ih (by omega)]
    exact c1pre_step j (by omega)

theorem c1pre_not_done : ∀ j, j < 13 → execDone (c1pre j) = false := by
  intro j hj
  interval_cases j <;> rfl

theorem c1iter_step : ∀ l k j, j < 8 → execStep a1 (c1iter l k j) = c1iter l k (j + 1) := by
  intro l k j hj
  interval_cases j <;> rfl

theorem c1iter_stepN : ∀ l k j, j ≤ 8 → stepN a1 j (iter1 l k) = c1iter l k j := by
  intro l k j hj
  induction j with
  | zero => rfl
  | succ j ih =>
    rw [stepN_succ, ih (by omega)]
    exact c1iter_step l k j (by omega)

theorem iter1_cycle (l : List Value) (k : Nat) :
    stepN a1 8 (iter1 l k) = iter1 (l ++ [.vint 2]) (k + 1) :=
  c1iter_stepN l k 8 (by omega)

theorem c1iter_not_done : ∀ l k j, j < 8 → execDone (c1iter l k j) = false := by
  intro l k j hj
  interval_cases j <;> rfl

theorem iter1_not_done (l : List Value) (k : Nat) :
    ∀ j, j < 8 → execDone (stepN a1 j (iter1 l k)) = false := by
  intro j hj
  rw [c1iter_stepN l k j (by omega)]
  exact c1iter_not_done l k j hj

theorem p1_prefix : stepN a1 13 (initExec a1) = iter1 [.vint 2] 1 :=
  c1pre_stepN 13 (by omega)

theorem p1_never_done : ∀ j, execDone (stepN a1 j (initExec a1)) = false := by
  have horb : ∀ j x, execDone (stepN a1 j ((fun p : List Value × Nat => iter1 p.1 p.2) x)) = false :=
    periodic_not_done a1 (fun p => iter1 p.1 p.2) (fun p => (p.1 ++ [.vint 2], p.2 + 1)) 8
      (by omega) (fun x => iter1_cycle x.1 x.2) (fun x j hj => iter1_not_done x.1 x.2 j hj)
  intro j
  by_cases h : j < 13
  · rw [c1pre_stepN j (by omega)]
    exact c1pre_not_done j h
  · have hj : j = 13 + (j - 13) := by omega
    rw [hj, stepN_add, p1_prefix]
    exact horb (j - 13) ([.vint 2], 1)

theorem p1_run_none : ∀ f, runE a1 f (initExec a1) = none := by
  intro f
  exact (runE_none_iff a1 f (initExec a1)).2 (fun j _ => p1_never_done j)

/-- C1: the claim says that for `n: 3` / `r: [n : n - 1]` / `!: n`
execution terminates with `r = [3, 2, 1]` and the post-loop `n` printed.
In fact the cycle body `n - 1` is a pure expression that never reassigns
`n`, so the stored predicate test `ev <= 0` never succeeds on `n = 3` and
the executor's work list never empties: no amount of fuel makes the run
conclude (not even by a fatal diagnostic). -/
theorem C1_counterexample :
    ¬ ∃ f fin, runE (feedAll p1).prog.nodes f (initExec (feedAll p1).prog.nodes) = some fin := by
  intro h
  obtain ⟨f, fin, hf⟩ := h
  rw [a1_parse.1, p1_run_none f] at hf
  exact Option.noConfusion hf

/-- C1 (amended): on the program `n: 3` / `r: [n : n - 1]` / `!: n` the
interpreter does not terminate.  The parse succeeds (arena `a1`, nothing
fatal); the run exhausts every fuel; and after the 13-step prefix plus `k`
full iterations (8 steps each) the machine is back at the top of the cycle
body with the cycle's cached sequence equal to `k + 1` copies of `2` (the
body value `n - 1` under the never-changing environment), `n` still `3`,
and nothing printed. -/
theorem C1_amended :
    ((feedAll p1).prog.nodes = a1 ∧ (feedAll p1).halted = false)
  ∧ (∀ f, runE a1 f (initExec a1) = none)
  ∧ (∀ k, stepN a1 (13 + 8 * k) (initExec a1) = iter1 (List.replicate (k + 1) (.vint 2)) (k + 1))
  ∧ (∀ k, (stepN a1 (13 + 8 * k) (initExec a1)).output = []
        ∧ alookup (stepN a1 (13 + 8 * k) (initExec a1)).vars "n" = some (.vint 3)
        ∧ alookup (stepN a1 (13 + 8 * k) (initExec a1)).cache 8
            = some (.vlist (List.replicate (k + 1) (.vint 2)))) := by
  have hiter : ∀ k, stepN a1 (13 + 8 * k) (initExec a1)
      = iter1 (List.replicate (k + 1) (.vint 2)) (k + 1) := by
    intro k
    induction k with
    | zero => simpa using p1_prefix
    | succ k ih =>
      have harith : 13 + 8 * (k + 1) = 13 + 8 * k + 8 := by omega
      rw [harith, stepN_add, ih, iter1_cycle, ← List.replicate_succ']
  refine ⟨a1_parse, p1_run_none, hiter, ?_⟩
  intro k
  rw [hiter k]
  exact ⟨rfl, rfl, rfl⟩

/-! ## C2: the payload of a cycle predicate -/

theorem getD_set_self {α : Type} (l : List α) (i : Nat) (x d : α) (h : i < l.length) :
    (l.set i x).getD i d = x := by
  induction l generalizing i with
  | nil => simp at h
  | cons hd t ih =>
    cases i with
    | zero => rfl
    | succ i => exact ih i (by simpa using h)

theorem getD_set_ne {α : Type} (l : List α) (i k : Nat) (x d : α) (h : i ≠ k) :
    (l.set i x).getD k d = l.getD k d := by
  induction l generalizing i k with
  | nil => rfl
  | cons hd t ih =>
    cases i with
    | zero => cases k with
      | zero => exact absurd rfl h
      | succ k => rfl
    | succ i => cases k with
      | zero => rfl
      | succ k => exact ih i k (by omega)

/-- Reading the node just appended by `add_leaf` / `add_active`. -/
theorem nodeAt_append_last (ns : List PNode) (n : PNode) (k : Nat) (h : k = ns.length) :
    nodeAt (ns ++ [n]) k = n := by
  subst h
  unfold nodeAt
  rw [List.getD_append_right ns [n] dfltNode ns.length (Nat.le_refl _)]
  simp

theorem nodeAt_append_lt (ns rest : List PNode) (k : Nat) (h : k < ns.length) :
    nodeAt (ns ++ rest) k = nodeAt ns k := by
  unfold nodeAt
  exact List.getD_append ns rest dfltNode k h

/-- `add_active` for a non-`SCOPE` node, written as one record update. -/
theorem addActive_eq (ps : ProgState) (nt : NodeType) (val : NodeVal) (c : Bool)
    (h : nt ≠ .scope) :
    addActive ps nt val c =
      { ps with
        nodes := (ps.nodes.set (topD ps.activeStack)
            (addChild (nodeAt ps.nodes (topD ps.activeStack)) ps.nodes.length))
          ++ [⟨ps.curLptr, ps.nodes.length, Int.ofNat (topD ps.activeStack), nt, val, sigOf ps, []⟩],
        activeStack := ps.nodes.length :: ps.activeStack,
        consStack := if c then ps.nodes.length :: ps.consStack else ps.consStack } := by
  cases c <;> simp [addActive, h]

/-- For every parser state in the `expr_val` expectation, an `LBRACK`
opens a `CYCLE` (as the new innermost construct, at index `sz` =
current arena size), a `PREDICATE` at `sz + 1` whose payload is the test
`ev <= 0`, taken target the `CYCLE`'s index, and no not-taken target,
and the predicate's inner `EXPR` at `sz + 2`; parsing continues in
`expr_val`. -/
theorem lbrack_opens_cycle (ps : ProgState) (lp : Nat) :
    ∃ ps', stepExprVal ps ⟨.lbrack, .vnone, lp⟩ = .cont ps' .exprVal
      ∧ ps'.nodes.length = ps.nodes.length + 3
      ∧ ps'.consStack = ps.nodes.length :: ps.consStack
      ∧ (nodeAt ps'.nodes ps.nodes.length).nt = .cycle
      ∧ (nodeAt ps'.nodes (ps.nodes.length + 1)).nt = .predicate
      ∧ (nodeAt ps'.nodes (ps.nodes.length + 1)).val
          = .vpred .leZero ps.nodes.length none
      ∧ (nodeAt ps'.nodes (ps.nodes.length + 1)).children = [ps.nodes.length + 2] := by
  set sz := ps.nodes.length with hsz
  have h1 := addActive_eq ps .cycle .vnone true (by simp)
  set ps1 := addActive ps .cycle .vnone true with hps1
  have hn1 : ps1.nodes.length = sz + 1 := by rw [h1]; simp
  have hc1 : topD ps1.consStack = sz := by rw [h1]; simp [topD]
  have ha1 : topD ps1.activeStack = sz := by rw [h1]; simp [topD]
  have hcyc1 : nodeAt ps1.nodes sz = ⟨ps.curLptr, sz, Int.ofNat (topD ps.activeStack), .cycle, .vnone, sigOf ps, []⟩ := by
    rw [h1]
    exact nodeAt_append_last _ _ _ (by simp)
  have h2 := addActive_eq ps1 .predicate (.vpred .leZero (topD ps1.consStack) none) false (by simp)
  set ps2 := addActive ps1 .predicate (.vpred .leZero (topD ps1.consStack) none) false with hps2
  have hn2 : ps2.nodes.length = sz + 2 := by rw [h2]; simp [hn1]
  have hc2 : ps2.consStack = ps1.consStack := by rw [h2]; rfl
  have ha2 : topD ps2.activeStack = sz + 1 := by rw [h2]; simp [topD, hn1]
  have hpred2 : nodeAt ps2.nodes (sz + 1)
      = ⟨ps1.curLptr, sz + 1, Int.ofNat (topD ps1.activeStack), .predicate,
         .vpred .leZero (topD ps1.consStack) none, sigOf ps1, []⟩ := by
    rw [h2]
    have : nodeAt ((ps1.nodes.set (topD ps1.activeStack)
        (addChild (nodeAt ps1.nodes (topD ps1.activeStack)) ps1.nodes.length))
        ++ [⟨ps1.curLptr, ps1.nodes.length, Int.ofNat (topD ps1.activeStack), .predicate,
            .vpred .leZero (topD ps1.consStack) none, sigOf ps1, []⟩]) (sz + 1)
        = ⟨ps1.curLptr, ps1.nodes.length, Int.ofNat (topD ps1.activeStack), .predicate,
           .vpred .leZero (topD ps1.consStack) none, sigOf ps1, []⟩ :=
      nodeAt_append_last _ _ _ (by simp [hn1])
    rw [this, hn1]

  have hcyc2 : nodeAt ps2.nodes sz
      = addChild (nodeAt ps1.nodes sz) (sz + 1) := by
    rw [h2]
    have hlt : sz < (ps1.nodes.set (topD ps1.activeStack)
        (addChild (nodeAt ps1.nodes (topD ps1.activeStack)) ps1.nodes.length)).length := by
      simp [hn1]
    rw [nodeAt_append_lt _ _ _ hlt]
    unfold nodeAt
    rw [ha1, hn1, getD_set_self ps1.nodes sz _ dfltNode (by omega)]
  have h3 := addActive_eq ps2 .expr .vnone false (by simp)
  set ps3 := addActive ps2 .expr .vnone false with hps3
  have hn3 : ps3.nodes.length = sz + 3 := by rw [h3]; simp [hn2]
  have hc3 : ps3.consStack = ps2.consStack := by rw [h3]; rfl
  have hpred3 : nodeAt ps3.nodes (sz + 1)
      = addChild (nodeAt ps2.nodes (sz + 1)) (sz + 2) := by
    rw [h3]
    have hlt : sz + 1 < (ps2.nodes.set (topD ps2.activeStack)
        (addChild (nodeAt ps2.nodes (topD ps2.activeStack)) ps2.nodes.length)).length := by
      simp [hn2]
    rw [nodeAt_append_lt _ _ _ hlt]
    unfold nodeAt
    rw [ha2, hn2, getD_set_self ps2.nodes (sz + 1) _ dfltNode (by omega)]
  have hcyc3 : nodeAt ps3.nodes sz = nodeAt ps2.nodes sz := by
    rw [h3]
    have hlt : sz < (ps2.nodes.set (topD ps2.activeStack)
        (addChild (nodeAt ps2.nodes (topD ps2.activeStack)) ps2.nodes.length)).length := by
      simp [hn2]
    rw [nodeAt_append_lt _ _ _ hlt]
    unfold nodeAt
    rw [ha2, getD_set_ne ps2.nodes (sz + 1) sz _ dfltNode (by omega)]
  refine ⟨ps3, ?_, hn3, ?_, ?_, ?_, ?_, ?_⟩
  · show stepExprVal ps ⟨.lbrack, .vnone, lp⟩ = .cont ps3 .exprVal
    simp only [stepExprVal]
    rfl
  · rw [hc3, hc2, h1]
    simp
  · rw [hcyc3, hcyc2, hcyc1]
    rfl
  · rw [hpred3, hpred2]
    rfl
  · rw [hpred3, hpred2, hc1]
    rfl
  · rw [hpred3, hpred2]
    simp [addChild, hn1]

/-- For every executor state whose next node is a predicate with payload
`(ev <= 0, t, no not-taken target)` and an integer argument `v`, the step
caches the boolean `v ≤ 0` and sets the jump pointer to `t` exactly when
`v ≤ 0`. -/
theorem predicate_leZero_step (a : List PNode) (es : ExecState) (i : Nat) (rest : List Nat)
    (t c : Nat) (v : Int)
    (hte : es.toExec = i :: rest) (hh : es.halted = false) (hc : es.crashed = false)
    (hj : es.jump = none)
    (hii : (nodeAt a i).i = i)
    (hn : (nodeAt a i).nt = .predicate)
    (hv : (nodeAt a i).val = .vpred .leZero t none)
    (hch : (nodeAt a i).children = [c])
    (hcv : alookup es.cache c = some (.vint v)) :
    execStep a es = { es with
      toExec := rest,
      cache := aupdate es.cache i (.vbool (decide (v ≤ 0))),
      jump := if v ≤ 0 then some t else none } := by
  unfold execStep
  rw [hh, hc, hte, hj]
  simp only [Bool.false_eq_true, or_self, if_false]
  unfold execNode
  rw [hn]
  unfold execPredicate
  rw [hv, hch]
  simp only [hcv, predTest, asArith]
  rw [hii]
  by_cases hv0 : v ≤ 0
  · simp [hv0]
  · simp [hv0]

theorem a2_parse : (feedAll p2).prog.nodes = a2 := by rfl

theorem c2pre_step : ∀ j, j < 4 → execStep a2 (c2pre j) = c2pre (j + 1) := by
  intro j hj
  interval_cases j <;> rfl

theorem c2pre_stepN : ∀ j, j ≤ 4 → stepN a2 j (initExec a2) = c2pre j := by
  intro j hj
  induction j with
  | zero => rfl
  | succ j ih =>
    rw [stepN_succ, ih (by omega)]
    exact c2pre_step j (by omega)

/-- C2: the claim says every cycle predicate's payload is the test
`value > 0` with taken target the cycle, so the jump pointer would be set
to the cycle's index exactly when the value is greater than zero.  On
`x: [1 : 2]` the parser stores the test `ev <= 0` (payload
`(leZero, 4, absent)`), and at execution time the predicate value is `1`
(greater than zero) yet after the predicate node runs the jump pointer is
still clear and the cached test result is `False`. -/
theorem C2_counterexample :
    (feedAll p2).prog.nodes = a2
  ∧ (nodeAt a2 5).nt = .predicate
  ∧ (nodeAt a2 5).val = .vpred .leZero 4 none
  ∧ (nodeAt a2 5).val ≠ .vpred .gtZero 4 none
  ∧ alookup (stepN a2 3 (initExec a2)).cache 6 = some (.vint 1)
  ∧ (0 : Int) < 1
  ∧ (stepN a2 4 (initExec a2)).jump = none
  ∧ alookup (stepN a2 4 (initExec a2)).cache 5 = some (.vbool false) := by
  refine ⟨a2_parse, rfl, rfl, by decide, ?_, by norm_num, ?_, ?_⟩
  · rw [c2pre_stepN 3 (by omega)]
    rfl
  · rw [c2pre_stepN 4 (by omega)]
    rfl
  · rw [c2pre_stepN 4 (by omega)]
    rfl

/-- C2 (amended): the payload triple of every cycle predicate the parser
creates is: test `value ≤ 0`; taken-jump target the `CYCLE`'s node index
(which, being post-order-after the body, *skips* the body — the exit path;
re-entry is done by the `CYCLE` node re-scheduling its subtree); and no
not-taken target.  At execution time the jump pointer is set to the
`CYCLE`'s index exactly when the predicate's value is less than or equal
to zero. -/
theorem C2_amended :
    (∀ ps lp, ∃ ps', stepExprVal ps ⟨.lbrack, .vnone, lp⟩ = .cont ps' .exprVal
      ∧ ps'.nodes.length = ps.nodes.length + 3
      ∧ ps'.consStack = ps.nodes.length :: ps.consStack
      ∧ (nodeAt ps'.nodes ps.nodes.length).nt = .cycle
      ∧ (nodeAt ps'.nodes (ps.nodes.length + 1)).nt = .predicate
      ∧ (nodeAt ps'.nodes (ps.nodes.length + 1)).val
          = .vpred .leZero ps.nodes.length none
      ∧ (nodeAt ps'.nodes (ps.nodes.length + 1)).children = [ps.nodes.length + 2])
  ∧ (∀ (a : List PNode) (es : ExecState) (i : Nat) (rest : List Nat) (t c : Nat) (v : Int),
      es.toExec = i :: rest → es.halted = false → es.crashed = false → es.jump = none →
      (nodeAt a i).i = i →
      (nodeAt a i).nt = .predicate → (nodeAt a i).val = .vpred .leZero t none →
      (nodeAt a i).children = [c] → alookup es.cache c = some (.vint v) →
      execStep a es = { es with
        toExec := rest,
        cache := aupdate es.cache i (.vbool (decide (v ≤ 0))),
        jump := if v ≤ 0 then some t else none }) :=
  ⟨lbrack_opens_cycle,
   fun a es i rest t c v hte hh hc hj hii hn hv hch hcv =>
     predicate_leZero_step a es i rest t c v hte hh hc hj hii hn hv hch hcv⟩

/-- Witness for `C2_amended` at the concrete program `x: [1 : 2]`: the
parser part applied to the freshly initialized parser state, and the
executor part applied to the machine state just before the predicate node
(index 5, argument value 1) runs. -/
theorem C2_witness :
    (∃ ps', stepExprVal progInit ⟨.lbrack, .vnone, 0⟩ = .cont ps' .exprVal
      ∧ ps'.nodes.length = progInit.nodes.length + 3
      ∧ ps'.consStack = progInit.nodes.length :: progInit.consStack
      ∧ (nodeAt ps'.nodes progInit.nodes.length).nt = .cycle
      ∧ (nodeAt ps'.nodes (progInit.nodes.length + 1)).nt = .predicate
      ∧ (nodeAt ps'.nodes (progInit.nodes.length + 1)).val
          = .vpred .leZero progInit.nodes.length none
      ∧ (nodeAt ps'.nodes (progInit.nodes.length + 1)).children = [progInit.nodes.length + 2])
  ∧ execStep a2 (c2pre 3) = { (c2pre 3) with
      toExec := [9, 8, 4, 3, 1, 0],
      cache := aupdate (c2pre 3).cache 5 (.vbool (decide ((1 : Int) ≤ 0))),
      jump := if (1 : Int) ≤ 0 then some 4 else none } :=
  ⟨C2_amended.1 progInit 0,
   C2_amended.2 a2 (c2pre 3) 5 [9, 8, 4, 3, 1, 0] 4 6 1 rfl rfl rfl rfl rfl rfl rfl rfl rfl⟩

/-! ## Concrete runs: generic glue -/

/-- If `n` not-yet-done steps lead to a done state, any fuel of at least
`n` makes the run return exactly that state. -/
theorem runE_of_stepN (a : List PNode) (f n : Nat) (es fin : ExecState)
    (hn : stepN a n es = fin) (hdone : execDone fin = true)
    (hnd : ∀ j, j < n → execDone (stepN a j es) = false) (hf : n ≤ f) :
    runE a f es = some fin := by
  induction n generalizing es f with
  | zero =>
    simp only [stepN] at hn
    subst hn
    cases f with
    | zero => simp [runE, hdone]
    | succ f => simp [runE, hdone]
  | succ n ih =>
    have h0 : execDone es = false := by simpa [stepN] using hnd 0 (by omega)
    cases f with
    | zero => omega
    | succ f =>
      simp only [runE, h0, Bool.false_eq_true, if_false]
      refine ih f (execStep a es) ?_ ?_ (by omega)
      · rw [stepN_comm, ← stepN_succ]
        exact hn
      · intro j hj
        have := hnd (j + 1) (by omega)
        simpa [stepN, stepN_comm] using this

theorem c3pre_step : ∀ j, j < 6 → execStep a3 (c3pre j) = c3pre (j + 1) := by
  intro j hj
  interval_cases j <;> rfl

theorem c3pre_stepN : ∀ j, j ≤ 6 → stepN a3 j (initExec a3) = c3pre j := by
  intro j hj
  induction j with
  | zero => rfl
  | succ j ih =>
    rw [stepN_succ, ih (by omega)]
    exact c3pre_step j (by omega)

theorem c3pre_not_done : ∀ j, j < 6 → execDone (c3pre j) = false := by
  intro j hj
  interval_cases j <;> rfl

theorem p3_run : runE a3 6 (initExec a3) = some (c3pre 6) := by
  refine runE_of_stepN a3 6 6 (initExec a3) (c3pre 6) (c3pre_stepN 6 (by omega)) rfl ?_ (by omega)
  intro j hj
  rw [c3pre_stepN j (by omega)]
  exact c3pre_not_done j hj

/-- In the `expr_val` expectation, a name/number token whose value is the
string `!` logs the "Cannot use output variable as value" diagnostic and
*breaks* out of the token loop — it does not call `terminate()`. -/
theorem bang_value_breaks (ps : ProgState) (tok : Token)
    (htt : tok.tt = .gname ∨ tok.tt = .lname ∨ tok.tt = .number)
    (hval : tok.val = .vstr "!") :
    parseStep ps .exprVal tok
      = .brk { ps with diags := ps.diags ++ [.bangAsValue ps.curLptr] } .exprVal := by
  have hq : ¬tok.tt = .quoi := by rcases htt with h | h | h <;> simp [h]
  unfold parseStep stepExprVal
  simp [hq, htt, hval]

/-- C3: the claim says `!` in a value position is a fatal parse error —
the interpreter terminates instead of parsing further lines and executing.
On `!: 5` / `x: !` / `!: 6`: after feeding the offending second line the
interpreter is not halted (only a diagnostic and a warning were logged, 8
nodes built), the third line is still parsed (the arena grows to 12
nodes), and execution then runs and prints `5` before dying of an
`IndexError` on the emptied expression — not of `terminate()`. -/
theorem C3_counterexample :
    (feedAll (List.take 2 p3)).halted = false
  ∧ (feedAll (List.take 2 p3)).prog.diags = [.bangAsValue 1, .weirdExpectWarn 1]
  ∧ (feedAll (List.take 2 p3)).prog.nodes.length = 8
  ∧ (feedAll p3).halted = false
  ∧ (feedAll p3).prog.nodes.length = 12
  ∧ (feedAll p3).prog.nodes = a3
  ∧ runE a3 6 (initExec a3) = some (c3pre 6)
  ∧ (c3pre 6).output = [.vint 5]
  ∧ (c3pre 6).halted = false :=
  ⟨rfl, rfl, rfl, rfl, rfl, rfl, p3_run, rfl, rfl⟩

/-- C3 (amended): a `!` in a value position is reported at parse time, but
it is not fatal: the parser abandons only the rest of that line (`break`)
and goes on with subsequent lines, and the program still executes.  The
truncated `EXPR` node left behind (here node 7, with no children) then
makes execution die, on this program with the crash of `outqueue[0]` on an
empty queue rather than through the termination routine. -/
theorem C3_amended :
    (∀ ps tok, (tok.tt = .gname ∨ tok.tt = .lname ∨ tok.tt = .number) → tok.val = .vstr "!" →
        parseStep ps .exprVal tok
          = .brk { ps with diags := ps.diags ++ [.bangAsValue ps.curLptr] } .exprVal)
  ∧ (feedAll p3).halted = false
  ∧ (feedAll p3).prog.diags = [.bangAsValue 1, .weirdExpectWarn 1]
  ∧ (feedAll p3).prog.nodes = a3
  ∧ (nodeAt a3 7).nt = .expr
  ∧ (nodeAt a3 7).children = []
  ∧ runE a3 6 (initExec a3) = some (c3pre 6)
  ∧ (c3pre 6).output = [.vint 5]
  ∧ (c3pre 6).crashed = true
  ∧ (c3pre 6).halted = false :=
  ⟨bang_value_breaks, rfl, rfl, rfl, rfl, rfl, p3_run, rfl, rfl, rfl⟩

/-- Witness for `C3_amended`: the general break fact applied to the
freshly initialized parser state and the `GNAME "!"` token of line 2. -/
theorem C3_witness :
    parseStep progInit .exprVal (mkG "!" 1)
      = .brk { progInit with diags := progInit.diags ++ [.bangAsValue progInit.curLptr] } .exprVal :=
  C3_amended.1 progInit (mkG "!" 1) (Or.inl rfl) rfl

/-- Processing a newline character emits exactly the pending token (the
newline itself is then consumed as whitespace). -/
theorem lexChar_newline (lptr : Nat) (st : LexState) :
    (lexChar lptr st '\n').toks = st.toks ++ pendingToks lptr st := by
  have h1 : isIdentChar '\n' = false := by decide
  have h2 : ('\n').isWhitespace = true := by decide
  have h3 : ('\n').isDigit = false := by decide
  have h4 : ('\n' == '\'') = false := by decide
  cases hm : st.mode <;>
    simp [lexChar, searchChar, pendingToks, hm, h1, h2, h3, h4]

/-- C4: the claim says the lexer flushes a pending identifier/number when
the end of the line is reached even without a trailing newline character.
It does not: `tokenise` never flushes after its character loop, so `ab`
and `12` (no newline) produce no token at all, while with the newline the
token appears. -/
theorem C4_counterexample :
    tokenise 0 "ab".toList = []
  ∧ tokenise 0 "ab\n".toList = [⟨.gname, .vstr "ab", 0⟩]
  ∧ tokenise 0 "12".toList = []
  ∧ tokenise 0 "12\n".toList = [⟨.number, .vnum 12, 0⟩] :=
  ⟨rfl, rfl, rfl, rfl⟩

/-- C4 (amended): the lexer itself never flushes at the end of the
character loop; a pending identifier/number token is emitted exactly when
a further breaking character arrives.  Since the shell feeds lines read
from standard input with their trailing `'\n'`, a line ending in a newline
does yield the pending token: for every line, tokenising `line ++ "\n"`
yields the tokens of `line` followed by exactly the pending token of the
lexer state at the end of `line`.  A line that ends mid-token with no
trailing newline loses the pending token. -/
theorem C4_amended :
    ∀ (lptr : Nat) (cs : List Char),
      tokenise lptr (cs ++ ['\n']) = tokenise lptr cs ++ pendingToks lptr (lexLine lptr cs) := by
  intro lptr cs
  unfold tokenise lexLine
  rw [List.foldl_append]
  exact lexChar_newline lptr (List.foldl (lexChar lptr) lexInit cs)

/-! ## C5: a bad character while lexing a local name -/

/-- A non-identifier, non-apostrophe character in `LNAME` mode logs the
diagnostic, emits the collected identifier, and is then *reprocessed* by
the `SEARCH` block (the source falls through into `if mode == search:`
with the same character). -/
theorem lname_bad_char_reprocessed (lptr : Nat) (st : LexState) (c : Char)
    (hm : st.mode = .lname) (hident : isIdentChar c = false) (hq : c ≠ '\'') :
    lexChar lptr st c
      = searchChar lptr
          { st with
            mode := .search, builder := "",
            toks := st.toks ++ [⟨.lname, .vstr st.builder, lptr⟩],
            diags := st.diags ++ [.badCharLocal lptr c] } c := by
  unfold lexChar
  rw [hm]
  simp [hident, hq]

/-- C5: the claim says the offending character is discarded and yields no
further token — e.g. a `+` ending an unclosed local name does not produce
a `PLUS` token.  Tokenising `'a+` (with the line's newline) in fact yields
the `LNAME` *and* a `PLUS` token: the bad character is reprocessed in
`SEARCH` mode, not discarded. -/
theorem C5_counterexample :
    tokenise 0 ['\'', 'a', '+', '\n'] = [⟨.lname, .vstr "a", 0⟩, ⟨.plus, .vnone, 0⟩]
  ∧ (tokenise 0 ['\'', 'a', '+', '\n']).contains ⟨.plus, .vnone, 0⟩ = true :=
  ⟨rfl, rfl⟩

/-- C5 (amended): on a non-identifier, non-apostrophe character in `LNAME`
mode the lexer logs the diagnostic and still emits the collected
identifier, but the offending character is then handed to the `SEARCH`
block and may produce its own token; only a closing apostrophe is
silently consumed.  Concretely, `'a+` lexes to `LNAME "a"` followed by
`PLUS`, with the bad-character diagnostic. -/
theorem C5_amended :
    (∀ (lptr : Nat) (st : LexState) (c : Char),
      st.mode = .lname → isIdentChar c = false → c ≠ '\'' →
      lexChar lptr st c
        = searchChar lptr
            { st with
              mode := .search, builder := "",
              toks := st.toks ++ [⟨.lname, .vstr st.builder, lptr⟩],
              diags := st.diags ++ [.badCharLocal lptr c] } c)
  ∧ tokenise 0 ['\'', 'a', '+', '\n'] = [⟨.lname, .vstr "a", 0⟩, ⟨.plus, .vnone, 0⟩]
  ∧ (lexLine 0 ['\'', 'a', '+', '\n']).diags = [.badCharLocal 0 '+'] :=
  ⟨lname_bad_char_reprocessed, rfl, rfl⟩

/-- Witness for `C5_amended`: the reprocessing fact at the state reached
inside `'a+` just before the `+`, showing the `+` is handed back to the
search block (which emits `PLUS`). -/
theorem C5_witness :
    lexChar 0 ⟨.lname, "a", [], []⟩ '+'
      = searchChar 0 ⟨.search, "", [⟨.lname, .vstr "a", 0⟩], [.badCharLocal 0 '+']⟩ '+'
  ∧ searchChar 0 ⟨.search, "", [⟨.lname, .vstr "a", 0⟩], [.badCharLocal 0 '+']⟩ '+'
      = ⟨.search, "", [⟨.lname, .vstr "a", 0⟩, ⟨.plus, .vnone, 0⟩], [.badCharLocal 0 '+']⟩ :=
  ⟨C5_amended.1 0 ⟨.lname, "a", [], []⟩ '+' rfl (by decide) (by decide), rfl⟩

theorem rpnTailFrom_eq (ps : List (TokenType × Int)) :
    ∀ o, rpnTailFrom o ps = .oper o :: rpnRest ps := by
  induction ps with
  | nil => intro o; rfl
  | cons p ps ih => intro o; simp [rpnTailFrom, rpnRest, ih]

theorem rpnRest_length (ps : List (TokenType × Int)) :
    (rpnRest ps).length = 2 * ps.length := by
  induction ps with
  | nil => rfl
  | cons p ps ih => simp [rpnRest, ih]; omega

/-- With equal precedences, handling an `OP` child pops the whole stack to
the queue and leaves the new operator alone on the stack. -/
theorem syOp_single (o cur : TokenType) (out : List SYItem) :
    syOp [o] out cur = ([cur], out ++ [.oper o]) := by
  simp [syOp, syWhile, prec]

theorem syOp_empty (cur : TokenType) (out : List SYItem) :
    syOp [] out cur = ([cur], out) := by
  simp [syOp, syWhile]

/-- Folding the remaining alternation items over the scan with operator
`o` pending: the flushed queue extends the current one by exactly the
expected Reverse Polish tail. -/
theorem syFold_altTail (ps : List (TokenType × Int)) :
    ∀ (o : TokenType) (out : List SYItem),
      ((altTail ps).foldl syStep ([o], out)).2
        ++ ((altTail ps).foldl syStep ([o], out)).1.map SYItem.oper
      = out ++ rpnTailFrom o ps := by
  induction ps with
  | nil => intro o out; simp [altTail, rpnTailFrom]
  | cons p ps ih =>
    intro o out
    simp only [altTail, List.foldl_cons, syStep, syOp_single]
    rw [ih p.1 (out ++ [SYItem.oper o] ++ [SYItem.opnd (Value.vint p.2)])]
    simp [rpnTailFrom]

/-- The shunting yard turns an alternation into the expected Reverse
Polish queue. -/
theorem syRun_alt (v0 : Int) (ps : List (TokenType × Int)) :
    syRun (altItems v0 ps)
      = .opnd (.vint v0) ::
          (match ps with
           | [] => []
           | p :: ps' => .opnd (.vint p.2) :: rpnTailFrom p.1 ps') := by
  cases ps with
  | nil => rfl
  | cons p ps' =>
    show ((altItems v0 (p :: ps')).foldl syStep ([], [])).2
        ++ ((altItems v0 (p :: ps')).foldl syStep ([], [])).1.map SYItem.oper = _
    simp only [altItems, altTail, List.foldl_cons, syStep, syOp_empty]
    rw [syFold_altTail ps' p.1 ([] ++ [SYItem.opnd (Value.vint v0)] ++ [SYItem.opnd (Value.vint p.2)])]
    simp [rpnTailFrom_eq]

theorem applyOp_int (o : TokenType) (a b : Int) (h : o = .plus ∨ o = .minus) :
    applyOp o (.vint a) (.vint b)
      = some (.vint (if o = .plus then a + b else a - b)) := by
  rcases h with h | h <;> subst h <;> simp [applyOp, asArith]

theorem rpnEvalF_single (f : Nat) (v : Value) (ptr : Nat) :
    rpnEvalF (f + 1) [.opnd v] ptr = .ok v := by
  rw [rpnEvalF.eq_def]
  simp

/-- One combine step of the RPN loop from pointer 1: the two leading
operands and the operator collapse to the applied value. -/
theorem rpnEvalF_combine (f : Nat) (a b : Int) (o : TokenType) (rest : List SYItem)
    (ho : o = .plus ∨ o = .minus) :
    rpnEvalF (f + 2) (.opnd (.vint a) :: .opnd (.vint b) :: .oper o :: rest) 1
      = rpnEvalF f (.opnd (.vint (if o = .plus then a + b else a - b)) :: rest) 1 := by
  show rpnEvalF (f + 1 + 1) _ 1 = _
  rw [rpnEvalF.eq_def]
  simp only [List.length_cons, List.get?]
  rw [if_neg (by omega), if_neg (by omega)]
  rw [rpnEvalF.eq_def]
  simp only [List.length_cons, List.get?]
  rw [if_neg (by omega), if_neg (by omega), if_neg (by omega)]
  simp only [List.take, List.drop, applyOp_int o a b ho]
  rfl

/-- Full reduction of an alternation's Reverse Polish queue from pointer
1: the result is the left-associative fold. -/
theorem rpnEvalF_alt1 (ps : List (TokenType × Int)) :
    ∀ (f : Nat) (a b : Int) (o : TokenType),
      (∀ p ∈ ps, p.1 = .plus ∨ p.1 = .minus) → (o = .plus ∨ o = .minus) →
      2 * ps.length + 3 ≤ f →
      rpnEvalF f (.opnd (.vint a) :: .opnd (.vint b) :: .oper o :: rpnRest ps) 1
        = .ok (.vint (lfold (if o = .plus then a + b else a - b) ps)) := by
  induction ps with
  | nil =>
    intro f a b o _ ho hf
    obtain ⟨g, rfl⟩ : ∃ g, f = g + 3 := ⟨f - 3, by omega⟩
    simp only [rpnRest]
    show rpnEvalF (g + 1 + 2) _ 1 = _
    rw [rpnEvalF_combine (g + 1) a b o [] ho]
    rw [rpnEvalF_single g]
    rfl
  | cons p ps ih =>
    intro f a b o hps ho hf
    obtain ⟨g, rfl⟩ : ∃ g, f = g + 2 := ⟨f - 2, by omega⟩
    simp only [rpnRest]
    rw [rpnEvalF_combine g a b o _ ho]
    rw [ih g _ p.2 p.1 (fun q hq => hps q (by simp [hq])) (hps p (by simp))
      (by simp at hf; omega)]
    simp [lfold]

/-- The `EXPR` evaluation of an integer alternation: shunting yard plus
RPN reduction equals the left-associative fold. -/
theorem rpnEval_syRun_alt (v0 : Int) (ps : List (TokenType × Int))
    (hps : ∀ p ∈ ps, p.1 = .plus ∨ p.1 = .minus) :
    rpnEval (syRun (altItems v0 ps)) 0 = .ok (.vint (lfold v0 ps)) := by
  rw [syRun_alt]
  cases ps with
  | nil =>
    show rpnEval [.opnd (.vint v0)] 0 = _
    unfold rpnEval
    show rpnEvalF (2 + 1) _ 0 = _
    rw [rpnEvalF_single]
    rfl
  | cons p ps' =>
    show rpnEval (.opnd (.vint v0) :: .opnd (.vint p.2) :: rpnTailFrom p.1 ps') 0 = _
    rw [rpnTailFrom_eq]
    unfold rpnEval
    have hlen : (SYItem.opnd (.vint v0) :: .opnd (.vint p.2) :: .oper p.1 :: rpnRest ps').length
        = 3 + 2 * ps'.length := by
      simp [rpnRest_length]
      omega
    rw [hlen]
    obtain ⟨g, hg⟩ : ∃ g, 2 * (3 + 2 * ps'.length) + 1 = g + 1 :=
      ⟨2 * (3 + 2 * ps'.length), by omega⟩
    rw [hg]
    rw [show rpnEvalF (g + 1) (.opnd (.vint v0) :: .opnd (.vint p.2) :: .oper p.1 :: rpnRest ps') 0
        = rpnEvalF g (.opnd (.vint v0) :: .opnd (.vint p.2) :: .oper p.1 :: rpnRest ps') 1 from by
      rw [rpnEvalF.eq_def]
      simp only [List.length_cons, List.get?]
      rw [if_neg (by omega), if_neg (by omega)]]
    rw [rpnEvalF_alt1 ps' g v0 p.2 p.1 (fun q hq => hps q (by simp [hq])) (hps p (by simp))
      (by omega)]
    simp [lfold]

/-- The `EXPR` step with exactly one child: the node inherits the child's
cached value. -/
theorem expr_single_step (a : List PNode) (es : ExecState) (i : Nat) (rest : List Nat)
    (c : Nat) (v : Value)
    (hte : es.toExec = i :: rest) (hh : es.halted = false) (hc : es.crashed = false)
    (hj : es.jump = none) (hii : (nodeAt a i).i = i)
    (hn : (nodeAt a i).nt = .expr) (hch : (nodeAt a i).children = [c])
    (hcv : alookup es.cache c = some v) :
    execStep a es = { es with toExec := rest, cache := aupdate es.cache i v } := by
  unfold execStep
  rw [hh, hc, hte, hj]
  simp only [Bool.false_eq_true, or_self, if_false]
  unfold execNode
  rw [hn]
  unfold execExpr
  rw [hch, hii]
  simp [hcv]

/-- The `EXPR` step with at least two children whose scan forms an
integer alternation: the node's value is the left-associative fold. -/
theorem expr_multi_step (a : List PNode) (es : ExecState) (i : Nat) (rest : List Nat)
    (c1 c2 : Nat) (cs : List Nat) (v0 : Int) (ps : List (TokenType × Int))
    (hte : es.toExec = i :: rest) (hh : es.halted = false) (hc : es.crashed = false)
    (hj : es.jump = none) (hii : (nodeAt a i).i = i)
    (hn : (nodeAt a i).nt = .expr) (hch : (nodeAt a i).children = c1 :: c2 :: cs)
    (hitems : buildItems a es.cache (c1 :: c2 :: cs) = some (altItems v0 ps))
    (hpm : ∀ p ∈ ps, p.1 = .plus ∨ p.1 = .minus) :
    execStep a es
      = { es with toExec := rest, cache := aupdate es.cache i (.vint (lfold v0 ps)) } := by
  unfold execStep
  rw [hh, hc, hte, hj]
  simp only [Bool.false_eq_true, or_self, if_false]
  unfold execNode
  rw [hn]
  unfold execExpr
  rw [hch, hii]
  simp [hitems, rpnEval_syRun_alt v0 ps hpm]

/-- C6: for every `EXPR` node, a single child's value is inherited, and
children forming an alternation `v0 o1 v1 … ok vk` of integer operands and
`+`/`-` operators evaluate via shunting yard and Reverse Polish reduction
to the left-associative `(((v0 o1 v1) o2 v2) … ok vk)` (`lfold`). -/
theorem C6_theorem :
    (∀ (a : List PNode) (es : ExecState) (i : Nat) (rest : List Nat) (c : Nat) (v : Value),
      es.toExec = i :: rest → es.halted = false → es.crashed = false → es.jump = none →
      (nodeAt a i).i = i → (nodeAt a i).nt = .expr → (nodeAt a i).children = [c] →
      alookup es.cache c = some v →
      execStep a es = { es with toExec := rest, cache := aupdate es.cache i v })
  ∧ (∀ (a : List PNode) (es : ExecState) (i : Nat) (rest : List Nat)
      (c1 c2 : Nat) (cs : List Nat) (v0 : Int) (ps : List (TokenType × Int)),
      es.toExec = i :: rest → es.halted = false → es.crashed = false → es.jump = none →
      (nodeAt a i).i = i → (nodeAt a i).nt = .expr →
      (nodeAt a i).children = c1 :: c2 :: cs →
      buildItems a es.cache (c1 :: c2 :: cs) = some (altItems v0 ps) →
      (∀ p ∈ ps, p.1 = .plus ∨ p.1 = .minus) →
      execStep a es
        = { es with toExec := rest, cache := aupdate es.cache i (.vint (lfold v0 ps)) }) :=
  ⟨fun a es i rest c v hte hh hc hj hii hn hch hcv =>
     expr_single_step a es i rest c v hte hh hc hj hii hn hch hcv,
   fun a es i rest c1 c2 cs v0 ps hte hh hc hj hii hn hch hitems hpm =>
     expr_multi_step a es i rest c1 c2 cs v0 ps hte hh hc hj hii hn hch hitems hpm⟩

/-- Witness for `C6_theorem` on the `p1` run: node 3 (`EXPR` over the
literal `3`) inherits its child's value, and node 12 (`EXPR` over
`n - 1` with `n = 3` cached) evaluates to `lfold 3 [(-,1)] = 2`. -/
theorem C6_witness :
    execStep a1 (c1pre 2) = { (c1pre 2) with
      toExec := [1, 6, 11, 10, 9, 13, 14, 15, 12, 8, 7, 5, 17, 19, 18, 16, 0],
      cache := aupdate (c1pre 2).cache 3 (.vint 3) }
  ∧ execStep a1 (c1pre 11) = { (c1pre 11) with
      toExec := [8, 7, 5, 17, 19, 18, 16, 0],
      cache := aupdate (c1pre 11).cache 12 (.vint (lfold 3 [(.minus, 1)])) } :=
  ⟨C6_theorem.1 a1 (c1pre 2) 3 [1, 6, 11, 10, 9, 13, 14, 15, 12, 8, 7, 5, 17, 19, 18, 16, 0]
     4 (.vint 3) rfl rfl rfl rfl rfl rfl rfl rfl,
   C6_theorem.2 a1 (c1pre 11) 12 [8, 7, 5, 17, 19, 18, 16, 0]
     13 14 [15] 3 [(.minus, 1)] rfl rfl rfl rfl rfl rfl rfl rfl (by decide)⟩

theorem c7pre_step : ∀ j, j < 23 → execStep a7 (c7pre j) = c7pre (j + 1) := by
  intro j hj
  interval_cases j <;> rfl

theorem c7pre_stepN : ∀ j, j ≤ 23 → stepN a7 j (initExec a7) = c7pre j := by
  intro j hj
  induction j with
  | zero => rfl
  | succ j ih =>
    rw [stepN_succ, ih (by omega)]
    exact c7pre_step j (by omega)

theorem c7pre_not_done : ∀ j, j < 23 → execDone (c7pre j) = false := by
  intro j hj
  interval_cases j <;> rfl

theorem p7_run : runE a7 23 (initExec a7) = some (c7pre 23) := by
  refine runE_of_stepN a7 23 23 (initExec a7) (c7pre 23) (c7pre_stepN 23 (by omega)) rfl ?_ (by omega)
  intro j hj
  rw [c7pre_stepN j (by omega)]
  exact c7pre_not_done j hj

/-- Looking a name up after `delVars`: a reclaimed name is gone, every
other binding is untouched. -/
theorem delVars_alookup (names : List String) :
    ∀ (vs vs' : List (String × Value)), delVars names vs = some vs' →
      ∀ s, alookup vs' s = if s ∈ names then none else alookup vs s := by
  induction names with
  | nil =>
    intro vs vs' h s
    simp only [delVars, Option.some_inj] at h
    subst h
    simp
  | cons n ns ih =>
    intro vs vs' h s
    simp only [delVars] at h
    cases hlo : alookup vs n with
    | none => rw [hlo] at h; simp at h
    | some v =>
      rw [hlo] at h
      simp only [Option.isSome_some, if_true] at h
      by_cases hs : s = n
      · subst hs
        rw [ih (aremove vs s) vs' h s]
        simp [alookup_aremove_self]
      · rw [ih (aremove vs n) vs' h s]
        rw [alookup_aremove_ne vs n s (fun hh => hs hh.symm)]
        simp [hs]

/-- The `SCOPE` step: the node takes its first child's value, the locals
recorded under its signature are deleted from the environment, and the
signature is dropped from the scope map. -/
theorem scope_step (a : List PNode) (es : ExecState) (i : Nat) (rest : List Nat)
    (c0 : Nat) (crest : List Nat) (v : Value) (names : List String)
    (vs' : List (String × Value))
    (hte : es.toExec = i :: rest) (hh : es.halted = false) (hc : es.crashed = false)
    (hj : es.jump = none) (hii : (nodeAt a i).i = i)
    (hn : (nodeAt a i).nt = .scope) (hch : (nodeAt a i).children = c0 :: crest)
    (hcv : alookup es.cache c0 = some v)
    (hsm : alookup es.scopeMap (nodeAt a i).sig = some names)
    (hdel : delVars names es.vars = some vs') :
    execStep a es = { es with
      toExec := rest, cache := aupdate es.cache i v,
      vars := vs', scopeMap := aremove es.scopeMap (nodeAt a i).sig } := by
  unfold execStep
  rw [hh, hc, hte, hj]
  simp only [Bool.false_eq_true, or_self, if_false]
  unfold execNode
  rw [hn]
  unfold execScope
  rw [hch, hii]
  simp [hcv, hsm, hdel]

/-- The `LVALUE` step for a global name never records anything in the
scope map (so scope conclusion can never reclaim it). -/
theorem lvalue_gname_no_record (es : ExecState) (nd : PNode) (t : Token)
    (hv : nd.val = .vtok t) (ht : t.tt = .gname) :
    (execLValue es nd).scopeMap = es.scopeMap := by
  unfold execLValue
  rw [hv]
  cases htv : t.val with
  | vnone => simp [htv, crashed]
  | vnum n => simp [htv, crashed]
  | vstr s =>
    simp only [htv, ht]
    split <;> rfl

/-- C7: when a `SCOPE` node executes its value equals its single child's
(the `RETURN`'s) value, every local recorded under its signature is
removed from the environment, the signature is dropped from the scope
map, every other binding is untouched, and globals are never recorded for
reclamation.  The token-level program `g: 1` / `y: (@ r` / `'r': 2` /
`h: 7` / `)` / `!: y` shows it end to end: `2` is printed, the local `r`
is gone afterwards, and the globals `g`, `h` (the latter first assigned
inside the scope) and `y` survive. -/
theorem C7_theorem :
    (∀ (a : List PNode) (es : ExecState) (i : Nat) (rest : List Nat)
       (c0 : Nat) (crest : List Nat) (v : Value) (names : List String)
       (vs' : List (String × Value)),
      es.toExec = i :: rest → es.halted = false → es.crashed = false → es.jump = none →
      (nodeAt a i).i = i → (nodeAt a i).nt = .scope →
      (nodeAt a i).children = c0 :: crest →
      alookup es.cache c0 = some v →
      alookup es.scopeMap (nodeAt a i).sig = some names →
      delVars names es.vars = some vs' →
      execStep a es = { es with
        toExec := rest, cache := aupdate es.cache i v,
        vars := vs', scopeMap := aremove es.scopeMap (nodeAt a i).sig }
      ∧ (∀ s ∈ names, alookup vs' s = none)
      ∧ (∀ s, s ∉ names → alookup vs' s = alookup es.vars s)
      ∧ alookup (aremove es.scopeMap (nodeAt a i).sig) (nodeAt a i).sig = none)
  ∧ (∀ (es : ExecState) (nd : PNode) (t : Token),
      nd.val = .vtok t → t.tt = .gname → (execLValue es nd).scopeMap = es.scopeMap)
  ∧ (feedAllToks t7).prog.nodes = a7
  ∧ (feedAllToks t7).halted = false
  ∧ runE a7 23 (initExec a7) = some (c7pre 23)
  ∧ (c7pre 23).output = [.vint 2]
  ∧ alookup (c7pre 23).cache 8 = some (.vint 2)
  ∧ alookup (c7pre 23).cache 9 = some (.vint 2)
  ∧ alookup (c7pre 23).vars "r" = none
  ∧ alookup (c7pre 23).vars "g" = some (.vint 1)
  ∧ alookup (c7pre 23).vars "h" = some (.vint 7)
  ∧ alookup (c7pre 23).vars "y" = some (.vint 2)
  ∧ (c7pre 23).scopeMap = [([0], [])] := by
  refine ⟨?_, lvalue_gname_no_record, rfl, rfl, p7_run, rfl, rfl, rfl, rfl, rfl, rfl, rfl, rfl⟩
  intro a es i rest c0 crest v names vs' hte hh hc hj hii hn hch hcv hsm hdel
  refine ⟨scope_step a es i rest c0 crest v names vs' hte hh hc hj hii hn hch hcv hsm hdel,
    ?_, ?_, alookup_aremove_self _ _⟩
  · intro s hs
    rw [delVars_alookup names es.vars vs' hdel s]
    simp [hs]
  · intro s hs
    rw [delVars_alookup names es.vars vs' hdel s]
    simp [hs]

/-- Witness for `C7_theorem`: the scope step of the `t7` run (node 8,
signature `0.8`, recorded locals `["r"]`), and the global-`LVALUE` frame
fact at node 16 (`h`). -/
theorem C7_witness :
    (execStep a7 (c7pre 15) = { (c7pre 15) with
      toExec := [7, 5, 20, 22, 21, 19, 0],
      cache := aupdate (c7pre 15).cache 8 (.vint 2),
      vars := [("g", .vint 1), ("y", .vnone), ("h", .vint 7)],
      scopeMap := aremove (c7pre 15).scopeMap [0, 8] }
      ∧ (∀ s ∈ ["r"], alookup [("g", Value.vint 1), ("y", Value.vnone), ("h", Value.vint 7)] s = none)
      ∧ (∀ s, s ∉ ["r"] →
          alookup [("g", Value.vint 1), ("y", Value.vnone), ("h", Value.vint 7)] s
            = alookup (c7pre 15).vars s)
      ∧ alookup (aremove (c7pre 15).scopeMap [0, 8]) ([0, 8] : List Nat) = none)
  ∧ (execLValue (c7pre 9) (nodeAt a7 16)).scopeMap = (c7pre 9).scopeMap := by
  constructor
  · have h := C7_theorem.1 a7 (c7pre 15) 8 [7, 5, 20, 22, 21, 19, 0] 9 [] (.vint 2) ["r"]
      [("g", .vint 1), ("y", .vnone), ("h", .vint 7)]
      rfl rfl rfl rfl rfl rfl rfl rfl rfl rfl
    exact h
  · exact C7_theorem.2.1 (c7pre 9) (nodeAt a7 16) ⟨.gname, .vstr "h", 3⟩ rfl rfl

theorem c8pre_step : ∀ j, j < 18 → execStep a8 (c8pre j) = c8pre (j + 1) := by
  intro j hj
  interval_cases j <;> rfl

theorem c8pre_stepN : ∀ j, j ≤ 18 → stepN a8 j (initExec a8) = c8pre j := by
  intro j hj
  induction j with
  | zero => rfl
  | succ j ih =>
    rw [stepN_succ, ih (by omega)]
    exact c8pre_step j (by omega)

theorem c8pre_not_done : ∀ j, j < 18 → execDone (c8pre j) = false := by
  intro j hj
  interval_cases j <;> rfl

theorem p8_run : runE a8 18 (initExec a8) = some (c8pre 18) := by
  refine runE_of_stepN a8 18 18 (initExec a8) (c8pre 18) (c8pre_stepN 18 (by omega)) rfl ?_ (by omega)
  intro j hj
  rw [c8pre_stepN j (by omega)]
  exact c8pre_not_done j hj

theorem alookup_foldl_aremove {β : Type} (ks : List Nat) :
    ∀ (l : List (Nat × β)) (j : Nat),
      alookup (ks.foldl (fun c k => aremove c k) l) j
        = if j ∈ ks then none else alookup l j := by
  induction ks with
  | nil => intro l j; simp
  | cons k ks ih =>
    intro l j
    simp only [List.foldl_cons]
    rw [ih (aremove l k) j]
    by_cases hj : j = k
    · subst hj
      simp [alookup_aremove_self]
    · by_cases hks : j ∈ ks <;>
        simp [hks, hj, alookup_aremove_ne l k j (fun hh => hj hh.symm)]

theorem cycleInv_same (a : List PNode) (es es' : ExecState)
    (hc : es'.cache = es.cache) (hs : es'.succ = es.succ)
    (h : CycleInv a es) : CycleInv a es' := by
  intro i hi
  rw [hc, hs]
  exact h i hi

/-- A step that keeps the ghost counts and changes the cache only at a
non-`CYCLE` node preserves the invariant. -/
theorem cycleInv_frame (a : List PNode) (es es' : ExecState) (i : Nat)
    (hsucc : es'.succ = es.succ)
    (hcache : ∀ j, ¬(j = i) → alookup es'.cache j = alookup es.cache j)
    (hnt : ¬(nodeAt a i).nt = .cycle)
    (h : CycleInv a es) : CycleInv a es' := by
  intro j hj
  have hij : ¬(j = i) := fun he => hnt (he ▸ hj)
  rw [hcache j hij, hsucc]
  exact h j hj

theorem execValue_frame (es : ExecState) (nd : PNode) :
    (execValue es nd).succ = es.succ
  ∧ ∀ j, ¬(j = nd.i) → alookup (execValue es nd).cache j = alookup es.cache j := by
  constructor
  · unfold execValue
    repeat' (first | split | dsimp only)
    all_goals rfl
  · intro j hj
    unfold execValue
    repeat' (first | split | dsimp only)
    all_goals first
      | rfl
      | exact alookup_aupdate_ne es.cache nd.i j _ (fun hh => hj hh.symm)

theorem execExpr_frame (a : List PNode) (es : ExecState) (nd : PNode) :
    (execExpr a es nd).succ = es.succ
  ∧ ∀ j, ¬(j = nd.i) → alookup (execExpr a es nd).cache j = alookup es.cache j := by
  constructor
  · unfold execExpr
    repeat' (first | split | dsimp only)
    all_goals rfl
  · intro j hj
    unfold execExpr
    repeat' (first | split | dsimp only)
    all_goals first
      | rfl
      | exact alookup_aupdate_ne es.cache nd.i j _ (fun hh => hj hh.symm)

theorem execLValue_frame (es : ExecState) (nd : PNode) :
    (execLValue es nd).succ = es.succ ∧ (execLValue es nd).cache = es.cache := by
  constructor <;>
    · unfold execLValue
      repeat' (first | split | dsimp only)
      all_goals rfl

theorem execAssign_frame (a : List PNode) (es : ExecState) (nd : PNode) :
    (execAssign a es nd).succ = es.succ ∧ (execAssign a es nd).cache = es.cache := by
  constructor <;>
    · unfold execAssign
      repeat' (first | split | dsimp only)
      all_goals rfl

theorem execReturn_frame (es : ExecState) (nd : PNode) :
    (execReturn es nd).succ = es.succ
  ∧ ∀ j, ¬(j = nd.i) → alookup (execReturn es nd).cache j = alookup es.cache j := by
  constructor
  · unfold execReturn
    repeat' (first | split | dsimp only)
    all_goals rfl
  · intro j hj
    unfold execReturn
    repeat' (first | split | dsimp only)
    all_goals first
      | rfl
      | exact alookup_aupdate_ne es.cache nd.i j _ (fun hh => hj hh.symm)

theorem execScope_frame (es : ExecState) (nd : PNode) :
    (execScope es nd).succ = es.succ
  ∧ ∀ j, ¬(j = nd.i) → alookup (execScope es nd).cache j = alookup es.cache j := by
  constructor
  · unfold execScope
    repeat' (first | split | dsimp only)
    all_goals rfl
  · intro j hj
    unfold execScope
    repeat' (first | split | dsimp only)
    all_goals first
      | rfl
      | exact alookup_aupdate_ne es.cache nd.i j _ (fun hh => hj hh.symm)

theorem execPredicate_frame (es : ExecState) (nd : PNode) :
    (execPredicate es nd).succ = es.succ
  ∧ ∀ j, ¬(j = nd.i) → alookup (execPredicate es nd).cache j = alookup es.cache j := by
  constructor
  · unfold execPredicate
    repeat' (first | split | dsimp only)
    all_goals rfl
  · intro j hj
    unfold execPredicate
    repeat' (first | split | dsimp only)
    all_goals first
      | rfl
      | exact alookup_aupdate_ne es.cache nd.i j _ (fun hh => hj hh.symm)

theorem execElse_frame (es : ExecState) (nd : PNode) :
    (execElse es nd).succ = es.succ
  ∧ ∀ j, ¬(j = nd.i) → alookup (execElse es nd).cache j = alookup es.cache j := by
  constructor
  · unfold execElse
    repeat' (first | split | dsimp only)
    all_goals rfl
  · intro j hj
    unfold execElse
    repeat' (first | split | dsimp only)
    all_goals first
      | rfl
      | exact alookup_aupdate_ne es.cache nd.i j _ (fun hh => hj hh.symm)

theorem condexScan_frame (a : List PNode) (i : Nat) :
    ∀ (cs : List Nat) (es : ExecState),
      (condexScan a es i cs).succ = es.succ
    ∧ ∀ j, ¬(j = i) → alookup (condexScan a es i cs).cache j = alookup es.cache j := by
  intro cs
  induction cs with
  | nil => intro es; exact ⟨rfl, fun j _ => rfl⟩
  | cons c cs ih =>
    intro es
    constructor
    · unfold condexScan
      repeat' (first | split | dsimp only)
      all_goals first
        | rfl
        | exact (ih es).1
        | exact (ih _).1
    · intro j hj
      unfold condexScan
      repeat' (first | split | dsimp only)
      all_goals first
        | rfl
        | exact alookup_aupdate_ne es.cache i j _ (fun hh => hj hh.symm)
        | exact (ih es).2 j hj
        | rw [(ih _).2 j hj]
          exact alookup_aupdate_ne es.cache i j _ (fun hh => hj hh.symm)

theorem execCondex_frame (a : List PNode) (es : ExecState) (nd : PNode) :
    (execCondex a es nd).succ = es.succ
  ∧ ∀ j, ¬(j = nd.i) → alookup (execCondex a es nd).cache j = alookup es.cache j := by
  constructor
  · unfold execCondex
    repeat' (first | split | dsimp only)
    all_goals first
      | rfl
      | exact (condexScan_frame a nd.i nd.children es).1
  · intro j hj
    unfold execCondex
    repeat' (first | split | dsimp only)
    all_goals first
      | rfl
      | exact alookup_aupdate_ne es.cache nd.i j _ (fun hh => hj hh.symm)
      | exact (condexScan_frame a nd.i nd.children es).2 j hj

/-- The `CYCLE` branch preserves the invariant: a halting check freezes
or initializes the empty sequence with a zero count, a successful check
appends exactly one body value and bumps the count, and the cleared
subtree entries (nested cycles included) are reset to the zero-count
no-cache state. -/
theorem cycleInv_execCycle (a : List PNode) (es : ExecState) (i : Nat)
    (hii : (nodeAt a i).i = i) (hnt : (nodeAt a i).nt = .cycle)
    (hcr : es.crashed = false)
    (h : CycleInv a es) : CycleInv a (execCycle a es (nodeAt a i)) := by
  unfold execCycle
  rw [hii]
  cases hch : (nodeAt a i).children with
  | nil => exact cycleInv_same a es _ rfl rfl h
  | cons c0 crest =>
    dsimp only
    cases hc0 : alookup es.cache c0 with
    | none => exact cycleInv_same a es _ rfl rfl h
    | some pv =>
      dsimp only
      by_cases hpv : pyTruthy pv = true
      · simp only [hpv, if_true]
        cases hci : alookup es.cache i with
        | some w => exact cycleInv_same a es _ rfl rfl h
        | none =>
          intro j hj
          by_cases hji : j = i
          · subst hji
            rw [alookup_aupdate_self]
            have hinv := h j hj
            rw [hci] at hinv
            simpa using hinv
          · rw [alookup_aupdate_ne es.cache i j _ (fun hh => hji hh.symm)]
            exact h j hj
      · simp only [hpv, if_false, Bool.not_eq_true] at hpv ⊢
        rw [if_neg (by simp [hpv])]
        cases crest with
        | nil => exact cycleInv_same a es _ rfl rfl h
        | cons c1 crest' =>
          dsimp only
          cases hc1 : alookup es.cache c1 with
          | none => exact cycleInv_same a es _ rfl rfl h
          | some bv =>
            dsimp only
            cases hci : alookup es.cache i with
            | some w =>
              cases w with
              | vlist l =>
                simp only [hcr, Bool.false_eq_true, if_false]
                intro j hj
                rw [alookup_foldl_aremove, alookup_foldl_aremove]
                by_cases hjd : j ∈ (recList a i).filter (fun k => k ≠ i)
                · rw [if_pos hjd]
                  dsimp only
                  rw [if_pos hjd]
                  exact rfl
                · simp only [hjd, if_false]
                  by_cases hji : j = i
                  · subst hji
                    rw [alookup_aupdate_self, alookup_aupdate_self]
                    have hinv := h j hj
                    rw [hci] at hinv
                    simp [hinv]
                  · rw [alookup_aupdate_ne es.cache i j _ (fun hh => hji hh.symm),
                        alookup_aupdate_ne es.succ i j _ (fun hh => hji hh.symm)]
                    exact h j hj
              | vint n =>
                exact cycleInv_same a es _ rfl rfl h
              | vbool b =>
                exact cycleInv_same a es _ rfl rfl h
              | vnone =>
                exact cycleInv_same a es _ rfl rfl h
            | none =>
              simp only [hcr, Bool.false_eq_true, if_false]
              intro j hj
              rw [alookup_foldl_aremove, alookup_foldl_aremove]
              by_cases hjd : j ∈ (recList a i).filter (fun k => k ≠ i)
              · rw [if_pos hjd]
                dsimp only
                rw [if_pos hjd]
                exact rfl
              · simp only [hjd, if_false]
                by_cases hji : j = i
                · subst hji
                  rw [alookup_aupdate_self, alookup_aupdate_self]
                  have hinv := h j hj
                  rw [hci] at hinv
                  simp [hinv]
                · rw [alookup_aupdate_ne es.cache i j _ (fun hh => hji hh.symm),
                      alookup_aupdate_ne es.succ i j _ (fun hh => hji hh.symm)]
                  exact h j hj

/-- One executor step preserves the invariant (for arenas whose in-range
nodes carry their own index, as all parser-built arenas do). -/
theorem cycleInv_step (a : List PNode) (es : ExecState)
    (hwf : ∀ k, k < a.length → (nodeAt a k).i = k)
    (h : CycleInv a es) : CycleInv a (execStep a es) := by
  unfold execStep
  by_cases hhc : es.halted = true ∨ es.crashed = true
  · rw [if_pos hhc]
    exact h
  · rw [if_neg hhc]
    have hcr : es.crashed = false := by
      cases hc : es.crashed
      · rfl
      · exact absurd (Or.inr hc) hhc
    cases hte : es.toExec with
    | nil => exact h
    | cons i rest =>
      have hbody : ∀ es₁ : ExecState, es₁.cache = es.cache → es₁.succ = es.succ →
          es₁.crashed = false → CycleInv a (execNode a es₁ (nodeAt a i)) := by
        intro es₁ hc1 hs1 hcr1
        have h₁ : CycleInv a es₁ := cycleInv_same a es es₁ hc1 hs1 h
        by_cases hlen : i < a.length
        · have hii : (nodeAt a i).i = i := hwf i hlen
          unfold execNode
          cases hnt : (nodeAt a i).nt with
          | seq => exact h₁
          | op => exact h₁
          | ifN => exact h₁
          | value =>
            exact cycleInv_frame a es₁ _ (nodeAt a i).i (execValue_frame es₁ (nodeAt a i)).1
              (execValue_frame es₁ (nodeAt a i)).2 (by rw [hii, hnt]; simp) h₁
          | expr =>
            exact cycleInv_frame a es₁ _ (nodeAt a i).i (execExpr_frame a es₁ (nodeAt a i)).1
              (execExpr_frame a es₁ (nodeAt a i)).2 (by rw [hii, hnt]; simp) h₁
          | lvalue =>
            exact cycleInv_same a es₁ _ (execLValue_frame es₁ (nodeAt a i)).2
              (execLValue_frame es₁ (nodeAt a i)).1 h₁
          | assign =>
            exact cycleInv_same a es₁ _ (execAssign_frame a es₁ (nodeAt a i)).2
              (execAssign_frame a es₁ (nodeAt a i)).1 h₁
          | ret =>
            exact cycleInv_frame a es₁ _ (nodeAt a i).i (execReturn_frame es₁ (nodeAt a i)).1
              (execReturn_frame es₁ (nodeAt a i)).2 (by rw [hii, hnt]; simp) h₁
          | scope =>
            exact cycleInv_frame a es₁ _ (nodeAt a i).i (execScope_frame es₁ (nodeAt a i)).1
              (execScope_frame es₁ (nodeAt a i)).2 (by rw [hii, hnt]; simp) h₁
          | predicate =>
            exact cycleInv_frame a es₁ _ (nodeAt a i).i (execPredicate_frame es₁ (nodeAt a i)).1
              (execPredicate_frame es₁ (nodeAt a i)).2 (by rw [hii, hnt]; simp) h₁
          | condex =>
            exact cycleInv_frame a es₁ _ (nodeAt a i).i (execCondex_frame a es₁ (nodeAt a i)).1
              (execCondex_frame a es₁ (nodeAt a i)).2 (by rw [hii, hnt]; simp) h₁
          | elseN =>
            exact cycleInv_frame a es₁ _ (nodeAt a i).i (execElse_frame es₁ (nodeAt a i)).1
              (execElse_frame es₁ (nodeAt a i)).2 (by rw [hii, hnt]; simp) h₁
          | cycle =>
            exact cycleInv_execCycle a es₁ i hii hnt hcr1 h₁
        · have hdf : (nodeAt a i).nt = .seq := by
            unfold nodeAt
            rw [List.getD_eq_default _ _ (by omega)]
            rfl
          unfold execNode
          rw [hdf]
          exact h₁
      dsimp only
      cases hj : es.jump with
      | some j =>
        dsimp only
        by_cases hij : i = j
        · rw [if_pos hij]
          exact hbody { es with toExec := rest, jump := none } rfl rfl hcr
        · rw [if_neg hij]
          exact h
      | none =>
        exact hbody { es with toExec := rest, jump := none } rfl rfl hcr

theorem cycleInv_init (a : List PNode) : CycleInv a (initExec a) := by
  intro i hi
  exact rfl

theorem cycleInv_runE (a : List PNode)
    (hwf : ∀ k, k < a.length → (nodeAt a k).i = k) :
    ∀ (f : Nat) (es fin : ExecState), CycleInv a es →
      runE a f es = some fin → CycleInv a fin := by
  intro f
  induction f with
  | zero =>
    intro es fin h hr
    unfold runE at hr
    by_cases hd : execDone es = true
    · rw [if_pos hd] at hr
      cases hr
      exact h
    · rw [if_neg hd] at hr
      cases hr
  | succ f ih =>
    intro es fin h hr
    unfold runE at hr
    by_cases hd : execDone es = true
    · rw [if_pos hd] at hr
      cases hr
      exact h
    · rw [if_neg hd] at hr
      exact ih _ fin (cycleInv_step a es hwf h) hr

/-- A `CYCLE` whose halting check fires while nothing is cached for it yet
caches the empty sequence. -/
theorem execCycle_first_empty (a : List PNode) (es : ExecState) (i : Nat)
    (c0 : Nat) (crest : List Nat) (pv : Value)
    (hii : (nodeAt a i).i = i)
    (hch : (nodeAt a i).children = c0 :: crest)
    (hpv : alookup es.cache c0 = some pv) (htr : pyTruthy pv = true)
    (hci : alookup es.cache i = none) :
    execCycle a es (nodeAt a i) = { es with cache := aupdate es.cache i (.vlist []) } := by
  unfold execCycle
  rw [hii, hch]
  dsimp only
  rw [hpv]
  dsimp only
  rw [if_pos htr, hci]

/-- Popping a `CYCLE` node (directly or as a taken jump target) whose
halting check fires while nothing is cached for it yet leaves the empty
sequence cached for it. -/
theorem cycle_first_fail_step (a : List PNode) (es : ExecState) (i : Nat)
    (rest : List Nat) (c0 : Nat) (crest : List Nat) (pv : Value)
    (hh : es.halted = false) (hc : es.crashed = false)
    (hte : es.toExec = i :: rest)
    (hj : es.jump = none ∨ es.jump = some i)
    (hii : (nodeAt a i).i = i) (hnt : (nodeAt a i).nt = .cycle)
    (hch : (nodeAt a i).children = c0 :: crest)
    (hpv : alookup es.cache c0 = some pv) (htr : pyTruthy pv = true)
    (hci : alookup es.cache i = none) :
    alookup (execStep a es).cache i = some (Value.vlist []) := by
  unfold execStep
  rw [if_neg (by simp [hh, hc]), hte]
  dsimp only
  rcases hj with hj | hj
  · rw [hj]
    dsimp only
    unfold execNode
    rw [hnt]
    dsimp only
    rw [execCycle_first_empty a { es with toExec := rest, jump := none } i c0 crest pv hii hch hpv htr hci]
    exact alookup_aupdate_self es.cache i _
  · rw [hj]
    dsimp only
    rw [if_pos rfl]
    unfold execNode
    rw [hnt]
    dsimp only
    rw [execCycle_first_empty a { es with toExec := rest, jump := none } i c0 crest pv hii hch hpv htr hci]
    exact alookup_aupdate_self es.cache i _

/-- C8: for every arena whose in-range nodes carry their own index (as all
parser-built arenas do), whenever execution from the initial state
concludes, every `CYCLE` node's cached value is an ordered sequence whose
length equals the recorded number of successful predicate checks (each
check that succeeds appends exactly one body value, and no check has
succeeded while nothing is cached); and a cycle whose halting check fires
on the very first check — nothing cached for the cycle yet — caches the
empty sequence for the cycle in that very step. -/
theorem C8_theorem :
    (∀ (a : List PNode) (f : Nat) (fin : ExecState),
       (∀ k, k < a.length → (nodeAt a k).i = k) →
       runE a f (initExec a) = some fin →
       CycleInv a fin)
  ∧ (∀ (a : List PNode) (es : ExecState) (i : Nat) (rest : List Nat)
       (c0 : Nat) (crest : List Nat) (pv : Value),
       es.halted = false → es.crashed = false →
       es.toExec = i :: rest →
       (es.jump = none ∨ es.jump = some i) →
       (nodeAt a i).i = i → (nodeAt a i).nt = .cycle →
       (nodeAt a i).children = c0 :: crest →
       alookup es.cache c0 = some pv → pyTruthy pv = true →
       alookup es.cache i = none →
       alookup (execStep a es).cache i = some (Value.vlist [])) := by
  constructor
  · intro a f fin hwf hr
    exact cycleInv_runE a hwf f (initExec a) fin (cycleInv_init a) hr
  · intro a es i rest c0 crest pv hh hc hte hj hii hnt hch hpv htr hci
    exact cycle_first_fail_step a es i rest c0 crest pv hh hc hte hj hii hnt hch hpv htr hci

/-- Witness for C8 on the program `n: 0` / `r: [n : 5]` / `!: r`: the run
concludes with the cycle node 8 caching the empty sequence and a zero
success count, and the first-check-failure step at state 10 caches the
empty sequence. -/
theorem C8_witness :
    CycleInv a8 (c8pre 18)
  ∧ alookup (execStep a8 (c8pre 10)).cache 8 = some (Value.vlist []) := by
  constructor
  · refine C8_theorem.1 a8 18 (c8pre 18) ?_ p8_run
    intro k hk
    have hlen : a8.length = 18 := rfl
    rw [hlen] at hk
    interval_cases k <;> rfl
  · exact C8_theorem.2 a8 (c8pre 10) 8 [7, 5, 15, 17, 16, 14, 0] 9 [12]
      (.vbool true) rfl rfl rfl (Or.inr rfl) rfl rfl rfl rfl rfl rfl

theorem a9_parse : (feedAll p9).prog.nodes = a9 ∧ (feedAll p9).halted = false :=
  ⟨rfl, rfl⟩

theorem c9pre_step : ∀ j, j < 5 → execStep a9 (c9pre j) = c9pre (j + 1) := by
  intro j hj
  interval_cases j <;> rfl

theorem c9pre_stepN : ∀ j, j ≤ 5 → stepN a9 j (initExec a9) = c9pre j := by
  intro j hj
  induction j with
  | zero => rfl
  | succ j ih =>
    rw [stepN_succ, ih (by omega)]
    exact c9pre_step j (by omega)

theorem c9pre_not_done : ∀ j, j < 5 → execDone (c9pre j) = false := by
  intro j hj
  interval_cases j <;> rfl

theorem p9_run : runE a9 5 (initExec a9) = some (c9pre 5) := by
  refine runE_of_stepN a9 5 5 (initExec a9) (c9pre 5) (c9pre_stepN 5 (by omega)) rfl ?_ (by omega)
  intro j hj
  rw [c9pre_stepN j (by omega)]
  exact c9pre_not_done j hj

theorem a9l_parse : (feedAll p9l).prog.nodes = a9l ∧ (feedAll p9l).halted = false :=
  ⟨rfl, rfl⟩

theorem c9lpre_step : ∀ j, j < 5 → execStep a9l (c9lpre j) = c9lpre (j + 1) := by
  intro j hj
  interval_cases j <;> rfl

theorem c9lpre_stepN : ∀ j, j ≤ 5 → stepN a9l j (initExec a9l) = c9lpre j := by
  intro j hj
  induction j with
  | zero => rfl
  | succ j ih =>
    rw [stepN_succ, ih (by omega)]
    exact c9lpre_step j (by omega)

theorem c9lpre_not_done : ∀ j, j < 5 → execDone (c9lpre j) = false := by
  intro j hj
  interval_cases j <;> rfl

theorem p9l_run : runE a9l 5 (initExec a9l) = some (c9lpre 5) := by
  refine runE_of_stepN a9l 5 5 (initExec a9l) (c9lpre 5) (c9lpre_stepN 5 (by omega)) rfl ?_ (by omega)
  intro j hj
  rw [c9lpre_stepN j (by omega)]
  exact c9lpre_not_done j hj

/-- Post-order linearization of a two-child node: the whole first subtree
precedes the whole second subtree, which precedes the node itself. -/
theorem recListF_two (f : Nat) (a : List PNode) (i c0 c1 : Nat)
    (hch : (nodeAt a i).children = [c0, c1]) :
    recListF (f + 1) a i = recListF f a c0 ++ recListF f a c1 ++ [i] := by
  have hstep : recListF (f + 1) a i
      = ((nodeAt a i).children.map (recListF f a)).flatten ++ [i] := rfl
  rw [hstep, hch]
  simp

/-- A fresh (absent) global target: the `LVALUE` branch initializes the
name to the unset value and records nothing in the scope map. -/
theorem execLValue_fresh_gname (es : ExecState) (nd : PNode) (t : Token) (s : String)
    (hv : nd.val = .vtok t) (htt : t.tt = .gname) (hts : t.val = .vstr s)
    (habs : alookup es.vars s = none) (hbang : s ≠ "!") :
    execLValue es nd = { es with vars := aupdate es.vars s .vnone } := by
  unfold execLValue
  rw [hv]
  try dsimp only
  rw [hts]
  try dsimp only
  rw [if_pos ⟨by rw [habs]; rfl, hbang⟩]
  try dsimp only
  rw [htt]
  rw [if_neg (by intro hcon; cases hcon)]

/-- A `VALUE` whose global name is present in the environment caches the
bound value — whatever it is, the unset value included — and raises no
diagnostic. -/
theorem execValue_present_gname (es : ExecState) (nd : PNode) (t : Token) (s : String) (v : Value)
    (hv : nd.val = .vtok t) (htt : t.tt = .gname) (hts : t.val = .vstr s)
    (hp : alookup es.vars s = some v) :
    execValue es nd = { es with cache := aupdate es.cache nd.i v } := by
  unfold execValue
  rw [hv]
  try dsimp only
  rw [htt, hts]
  try dsimp only
  rw [hp]

/-- A fresh (absent) target of either kind: the `LVALUE` branch always
initializes the name to the unset value in the shared environment — for a
local the scope map additionally records the name, for a global it does
not, but the variable environment update is one and the same. -/
theorem execLValue_fresh (es : ExecState) (nd : PNode) (t : Token) (s : String)
    (hv : nd.val = .vtok t) (hts : t.val = .vstr s)
    (habs : alookup es.vars s = none) (hbang : s ≠ "!") :
    (execLValue es nd).vars = aupdate es.vars s .vnone := by
  unfold execLValue
  rw [hv]
  try dsimp only
  rw [hts]
  try dsimp only
  rw [if_pos ⟨by rw [habs]; rfl, hbang⟩]
  repeat' (first | split | dsimp only)

/-- A `VALUE` whose name — global or local alike — is present in the
environment caches the bound value, the unset value included, and raises
no diagnostic. -/
theorem execValue_present (es : ExecState) (nd : PNode) (t : Token) (s : String) (v : Value)
    (hv : nd.val = .vtok t) (htt : t.tt = .gname ∨ t.tt = .lname) (hts : t.val = .vstr s)
    (hp : alookup es.vars s = some v) :
    execValue es nd = { es with cache := aupdate es.cache nd.i v } := by
  unfold execValue
  rw [hv]
  try dsimp only
  rcases htt with htt | htt <;>
    · rw [htt, hts]
      try dsimp only
      rw [hp]

/-- C9: for a two-child node, post-order linearization runs the whole
first subtree (the `LVALUE`) before the second (the right-hand side); a
fresh assignment target — global or local alike — is initialized by its
`LVALUE` to the unset value in the shared environment, so a `VALUE`
referencing the name afterwards (with either token kind) finds it bound —
unset value included — and caches it without any diagnostic; concretely,
both `x: x` (global) and `'x': 'x'` (local) parse and run to completion
with no diagnostic and the name left unset, the referencing `VALUE` node
having cached the unset value. -/
theorem C9_theorem :
    (∀ (f : Nat) (a : List PNode) (i c0 c1 : Nat),
       (nodeAt a i).children = [c0, c1] →
       recListF (f + 1) a i = recListF f a c0 ++ recListF f a c1 ++ [i])
  ∧ (∀ (es : ExecState) (nd : PNode) (t : Token) (s : String),
       nd.val = .vtok t → t.val = .vstr s →
       alookup es.vars s = none → s ≠ "!" →
       (execLValue es nd).vars = aupdate es.vars s .vnone
       ∧ alookup (execLValue es nd).vars s = some .vnone)
  ∧ (∀ (es : ExecState) (nd : PNode) (t : Token) (s : String) (v : Value),
       nd.val = .vtok t → (t.tt = .gname ∨ t.tt = .lname) → t.val = .vstr s →
       alookup es.vars s = some v →
       execValue es nd = { es with cache := aupdate es.cache nd.i v }
       ∧ (execValue es nd).diags = es.diags
       ∧ (execValue es nd).halted = es.halted)
  ∧ (feedAll p9).prog.nodes = a9
  ∧ (feedAll p9).halted = false
  ∧ (nodeAt a9 1).nt = .assign
  ∧ (nodeAt a9 1).children = [2, 3]
  ∧ (nodeAt a9 2).nt = .lvalue
  ∧ (nodeAt a9 4).nt = .value
  ∧ recList a9 0 = [2, 4, 3, 1, 0]
  ∧ runE a9 5 (initExec a9) = some (c9pre 5)
  ∧ (c9pre 5).vars = [("x", .vnone)]
  ∧ (c9pre 5).diags = []
  ∧ (c9pre 5).halted = false
  ∧ (c9pre 5).crashed = false
  ∧ alookup (c9pre 2).cache 4 = some .vnone
  ∧ (feedAll p9l).prog.nodes = a9l
  ∧ (feedAll p9l).halted = false
  ∧ (nodeAt a9l 2).nt = .lvalue
  ∧ (nodeAt a9l 2).val = .vtok ⟨.lname, .vstr "x", 0⟩
  ∧ (nodeAt a9l 4).val = .vtok ⟨.lname, .vstr "x", 0⟩
  ∧ recList a9l 0 = [2, 4, 3, 1, 0]
  ∧ runE a9l 5 (initExec a9l) = some (c9lpre 5)
  ∧ (c9lpre 5).vars = [("x", .vnone)]
  ∧ (c9lpre 5).diags = []
  ∧ (c9lpre 5).halted = false
  ∧ (c9lpre 5).crashed = false
  ∧ alookup (c9lpre 2).cache 4 = some .vnone := by
  refine ⟨recListF_two, ?_, ?_, rfl, rfl, rfl, rfl, rfl, rfl, rfl, p9_run,
    rfl, rfl, rfl, rfl, rfl, rfl, rfl, rfl, rfl, rfl, rfl, p9l_run,
    rfl, rfl, rfl, rfl, rfl⟩
  · intro es nd t s hv hts habs hbang
    have h := execLValue_fresh es nd t s hv hts habs hbang
    refine ⟨h, ?_⟩
    rw [h]
    exact alookup_aupdate_self es.vars s .vnone
  · intro es nd t s v hv htt hts hp
    have h := execValue_present es nd t s v hv htt hts hp
    exact ⟨h, by rw [h], by rw [h]⟩

/-- Witness for `C9_theorem` on the `x: x` and `'x': 'x'` runs: the
linearization of the assignment, the fresh-target initialization and the
successful unset-value lookup, each exercised at a global-token state
(`c9pre`) and a local-token state (`c9lpre`). -/
theorem C9_witness :
    recListF 5 a9 1 = recListF 4 a9 2 ++ recListF 4 a9 3 ++ [1]
  ∧ (execLValue (c9pre 0) (nodeAt a9 2)).vars = aupdate (c9pre 0).vars "x" .vnone
  ∧ alookup (execLValue (c9pre 0) (nodeAt a9 2)).vars "x" = some .vnone
  ∧ execValue (c9pre 1) (nodeAt a9 4)
      = { c9pre 1 with cache := aupdate (c9pre 1).cache (nodeAt a9 4).i .vnone }
  ∧ (execValue (c9pre 1) (nodeAt a9 4)).diags = (c9pre 1).diags
  ∧ (execLValue (c9lpre 0) (nodeAt a9l 2)).vars = aupdate (c9lpre 0).vars "x" .vnone
  ∧ alookup (execLValue (c9lpre 0) (nodeAt a9l 2)).vars "x" = some .vnone
  ∧ execValue (c9lpre 1) (nodeAt a9l 4)
      = { c9lpre 1 with cache := aupdate (c9lpre 1).cache (nodeAt a9l 4).i .vnone }
  ∧ (execValue (c9lpre 1) (nodeAt a9l 4)).diags = (c9lpre 1).diags :=
  ⟨C9_theorem.1 4 a9 1 2 3 rfl,
   (C9_theorem.2.1 (c9pre 0) (nodeAt a9 2) ⟨.gname, .vstr "x", 0⟩ "x"
      rfl rfl rfl (by decide)).1,
   (C9_theorem.2.1 (c9pre 0) (nodeAt a9 2) ⟨.gname, .vstr "x", 0⟩ "x"
      rfl rfl rfl (by decide)).2,
   (C9_theorem.2.2.1 (c9pre 1) (nodeAt a9 4) ⟨.gname, .vstr "x", 0⟩ "x" .vnone
      rfl (Or.inl rfl) rfl rfl).1,
   (C9_theorem.2.2.1 (c9pre 1) (nodeAt a9 4) ⟨.gname, .vstr "x", 0⟩ "x" .vnone
      rfl (Or.inl rfl) rfl rfl).2.1,
   (C9_theorem.2.1 (c9lpre 0) (nodeAt a9l 2) ⟨.lname, .vstr "x", 0⟩ "x"
      rfl rfl rfl (by decide)).1,
   (C9_theorem.2.1 (c9lpre 0) (nodeAt a9l 2) ⟨.lname, .vstr "x", 0⟩ "x"
      rfl rfl rfl (by decide)).2,
   (C9_theorem.2.2.1 (c9lpre 1) (nodeAt a9l 4) ⟨.lname, .vstr "x", 0⟩ "x" .vnone
      rfl (Or.inr rfl) rfl rfl).1,
   (C9_theorem.2.2.1 (c9lpre 1) (nodeAt a9l 4) ⟨.lname, .vstr "x", 0⟩ "x" .vnone
      rfl (Or.inr rfl) rfl rfl).2.1⟩

theorem a10_parse : (feedAllToks t10).prog.nodes = a10 ∧ (feedAllToks t10).halted = false :=
  ⟨rfl, rfl⟩

theorem c10pre_step : ∀ j, j < 23 → execStep a10 (c10pre j) = c10pre (j + 1) := by
  intro j hj
  interval_cases j <;> rfl

theorem c10pre_stepN : ∀ j, j ≤ 23 → stepN a10 j (initExec a10) = c10pre j := by
  intro j hj
  induction j with
  | zero => rfl
  | succ j ih =>
    rw [stepN_succ, ih (by omega)]
    exact c10pre_step j (by omega)

theorem c10pre_not_done : ∀ j, j < 23 → execDone (c10pre j) = false := by
  intro j hj
  interval_cases j <;> rfl

theorem p10_run : runE a10 23 (initExec a10) = some (c10pre 23) := by
  refine runE_of_stepN a10 23 23 (initExec a10) (c10pre 23) (c10pre_stepN 23 (by omega)) rfl ?_ (by omega)
  intro j hj
  rw [c10pre_stepN j (by omega)]
  exact c10pre_not_done j hj

/-- An `LVALUE` whose (apostrophe-stripped) name is already bound is a
complete no-op: nothing is recorded in the scope map and the binding is
left to the enclosing `ASSIGN` to overwrite. -/
theorem execLValue_present (es : ExecState) (nd : PNode) (t : Token) (s : String) (v : Value)
    (hv : nd.val = .vtok t) (hts : t.val = .vstr s)
    (hp : alookup es.vars s = some v) :
    execLValue es nd = es := by
  unfold execLValue
  rw [hv]
  try dsimp only
  rw [hts]
  try dsimp only
  rw [if_neg (fun hcon => by rw [hp] at hcon; exact Bool.false_ne_true hcon.1)]

/-- C10: an `LVALUE` over an already-bound name is a no-op (nothing is
recorded in the scope map, for locals included), scope conclusion removes
only the names recorded under the scope signature, and on the `t10`
program the local `n'` inside the scope permanently overwrites the
pre-existing global `n` with 5 while the genuinely local `r` is
reclaimed. -/
theorem C10_theorem :
    (∀ (es : ExecState) (nd : PNode) (t : Token) (s : String) (v : Value),
       nd.val = .vtok t → t.val = .vstr s →
       alookup es.vars s = some v →
       execLValue es nd = es)
  ∧ (∀ (names : List String) (vs vs' : List (String × Value)) (s : String),
       delVars names vs = some vs' → s ∉ names →
       alookup vs' s = alookup vs s)
  ∧ (feedAllToks t10).prog.nodes = a10
  ∧ (feedAllToks t10).halted = false
  ∧ (nodeAt a10 12).nt = .lvalue
  ∧ (nodeAt a10 12).val = .vtok ⟨.lname, .vstr "n", 2⟩
  ∧ alookup (c10pre 5).vars "n" = some (.vint 1)
  ∧ (c10pre 5).toExec = 12 :: (c10pre 6).toExec
  ∧ execStep a10 (c10pre 5) = c10pre 6
  ∧ (c10pre 6).vars = (c10pre 5).vars
  ∧ (c10pre 6).scopeMap = (c10pre 5).scopeMap
  ∧ alookup (c10pre 15).scopeMap [0, 8] = some ["r"]
  ∧ alookup (c10pre 9).vars "n" = some (.vint 5)
  ∧ runE a10 23 (initExec a10) = some (c10pre 23)
  ∧ alookup (c10pre 16).vars "n" = some (.vint 5)
  ∧ alookup (c10pre 16).vars "r" = none
  ∧ (c10pre 23).vars = [("n", .vint 5), ("y", .vint 2)]
  ∧ (c10pre 23).scopeMap = [([0], [])]
  ∧ (c10pre 23).output = [.vint 5] := by
  refine ⟨execLValue_present, ?_, rfl, rfl, rfl, rfl, rfl, rfl,
    c10pre_step 5 (by omega), rfl, rfl, rfl, rfl, p10_run, rfl, rfl, rfl, rfl, rfl⟩
  intro names vs vs' s hdel hs
  rw [delVars_alookup names vs vs' hdel s]
  simp [hs]

/-- Witness for `C10_theorem`: the no-op `LVALUE` for the already-bound
`n` at state 5 of the `t10` run, and scope conclusion keeping `n` because
only `r` was recorded. -/
theorem C10_witness :
    execLValue (c10pre 5) (nodeAt a10 12) = c10pre 5
  ∧ alookup [("n", Value.vint 5), ("y", Value.vnone)] "n"
      = alookup (c10pre 15).vars "n" :=
  ⟨C10_theorem.1 (c10pre 5) (nodeAt a10 12) ⟨.lname, .vstr "n", 2⟩ "n" (.vint 1)
     rfl rfl rfl,
   C10_theorem.2.1 ["r"] (c10pre 15).vars [("n", .vint 5), ("y", .vnone)] "n"
     rfl (by simp)⟩

end JPI
